import Mathlib

/-! Verification of the tweet-ingestion benchmarking harness
(`sql_vs_functions.py`) against its natural-language specification.

The program reads newline-delimited JSON records and loads them into an
SQLite store with three relations (USER, GEO, TWEET) under several
ingestion strategies.  We embed the decoded JSON values, the Python
operations the source performs on them (`dict.get`, subscripting, the
`in` operator, tuple unpacking, truthiness), the SQLite
`INSERT OR IGNORE` write semantics, and the per-record processing and
line loops of `populate_tables_web_1B`, `populate_tables_txt_1C` and
`batch_insert_data_1D`.  Wall-clock timing is outside the embedding; the
observable content of a strategy invocation is its final store content,
its `tweets_processed` counter and (for the file strategies) its
`errors_encountered` counter, or the fact that it aborted with an
uncaught exception. -/

/-- A decoded JSON value, as produced by `json.loads`.  Python `None`
(whether from JSON `null` or from `dict.get` with no default) is
`JValue.null`.  Numbers are rationals; the distinction between Python
`int` and `float` is abstracted away (it only affects the textual
rendering of numbers, which no verified property depends on).  Objects
are association lists; `json.loads` produces unique keys (later keys win
on duplicates, which `objLookup` mirrors). -/
inductive JValue where
  | null : JValue
  | bool : Bool → JValue
  | num : ℚ → JValue
  | str : String → JValue
  | arr : List JValue → JValue
  | obj : List (String × JValue) → JValue

/-- The Python exceptions the source code can raise per record after a
successful `json.loads`.  None of them is caught by the strategies
(which catch only `json.JSONDecodeError`), so each aborts the strategy
invocation. -/
inductive PyErr where
  | keyError : PyErr
  | typeError : PyErr
  | valueError : PyErr
  | attributeError : PyErr
  | interfaceError : PyErr
deriving DecidableEq, Repr

/-- Python truthiness of a decoded JSON value (`if geo:`). -/
def truthy : JValue → Bool
  | .null => false
  | .bool b => b
  | .num q => decide (q ≠ 0)
  | .str s => decide (s ≠ "")
  | .arr l => !l.isEmpty
  | .obj l => !l.isEmpty

/-- Python `isinstance(v, (int, float))`.  Booleans are instances of
`int` in Python, so they pass the check. -/
def isNumLike : JValue → Bool
  | .num _ => true
  | .bool _ => true
  | _ => false

/-- Key lookup in an object's association list; the last binding wins,
matching the behaviour of `json.loads` on duplicate keys. -/
def objLookup (fields : List (String × JValue)) (k : String) : Option JValue :=
  fields.foldl (fun acc kv => if kv.1 = k then some kv.2 else acc) none

/-- Whether `v` is an object that has key `k`. -/
def objHasKey (v : JValue) (k : String) : Bool :=
  match v with
  | .obj fields => (objLookup fields k).isSome
  | _ => false

/-- Python `v.get(k, default)`.  Only dictionaries have a `.get` method;
on any other value the attribute access raises `AttributeError`. -/
def pyGet (v : JValue) (k : String) (default : JValue) : Except PyErr JValue :=
  match v with
  | .obj fields => .ok ((objLookup fields k).getD default)
  | _ => .error .attributeError

/-- Python `v[k]` for a string key `k`: a dictionary lookup raising
`KeyError` when the key is absent; subscripting a list or a string with
a string raises `TypeError`, as does subscripting a scalar. -/
def pySubscript (v : JValue) (k : String) : Except PyErr JValue :=
  match v with
  | .obj fields =>
    match objLookup fields k with
    | some x => .ok x
    | none => .error .keyError
  | _ => .error .typeError

/-- Whether the string `s` contains `pat` as a substring (used for the
Python `in` operator on strings; `pat` is never empty in the source). -/
def strContainsSub (s pat : String) : Bool :=
  decide (2 ≤ (s.splitOn pat).length)

/-- Python `k in v` for a string `k`: key membership for dictionaries,
element membership for lists, substring test for strings, `TypeError`
for scalars. -/
def pyContains (k : String) (v : JValue) : Except PyErr Bool :=
  match v with
  | .obj fields => .ok (objLookup fields k).isSome
  | .arr l => .ok (l.any (fun x => match x with | .str s => decide (s = k) | _ => false))
  | .str s => .ok (strContainsSub s k)
  | _ => .error .typeError

/-- Python `all(isinstance(c, (int, float)) for c in v)`: iterating a
list checks each element; iterating a string yields one-character
strings (never numeric, so the result is `v = ""`); iterating a
dictionary yields its string keys (so the result is emptiness); scalars
are not iterable and raise `TypeError`. -/
def pyIterAllNumeric (v : JValue) : Except PyErr Bool :=
  match v with
  | .arr l => .ok (l.all isNumLike)
  | .str s => .ok s.isEmpty
  | .obj fields => .ok fields.isEmpty
  | _ => .error .typeError

/-- Python `a, b = v`: a two-element list unpacks to its elements, a
two-character string to its characters, a two-key dictionary to its
keys; other lengths raise `ValueError` and non-iterables `TypeError`. -/
def pyUnpack2 (v : JValue) : Except PyErr (JValue × JValue) :=
  match v with
  | .arr [a, b] => .ok (a, b)
  | .arr _ => .error .valueError
  | .str s =>
    match s.toList with
    | [c1, c2] => .ok (.str c1.toString, .str c2.toString)
    | _ => .error .valueError
  | .obj fields =>
    match fields.map (fun kv => kv.1) with
    | [k1, k2] => .ok (.str k1, .str k2)
    | _ => .error .valueError
  | _ => .error .typeError

/-- Deterministic rendering of a rational number, standing in for
Python's rendering of `int`/`float` values inside f-strings and
`json.dumps`.  The verified properties depend only on this being a
function of the numeric value. -/
def numRepr (q : ℚ) : String :=
  if q.den = 1 then toString q.num else toString q.num ++ "/" ++ toString q.den

mutual

/-- Model of `json.dumps` (string escaping and container punctuation are
abstracted; only determinism and the rendering of `null` vs `[]` matter
for the verified properties). -/
def json_dumps : JValue → String
  | .null => "null"
  | .bool true => "true"
  | .bool false => "false"
  | .num q => numRepr q
  | .str s => "\"" ++ s ++ "\""
  | .arr l => "[" ++ json_dumps_list l ++ "]"
  | .obj fields => "\x7b" ++ json_dumps_fields fields ++ "\x7d"

/-- Comma-joined rendering of a list of JSON values. -/
def json_dumps_list : List JValue → String
  | [] => ""
  | [x] => json_dumps x
  | x :: xs => json_dumps x ++ ", " ++ json_dumps_list xs

/-- Comma-joined rendering of an object's fields. -/
def json_dumps_fields : List (String × JValue) → String
  | [] => ""
  | [kv] => "\"" ++ kv.1 ++ "\": " ++ json_dumps kv.2
  | kv :: kvs => "\"" ++ kv.1 ++ "\": " ++ json_dumps kv.2 ++ ", " ++ json_dumps_fields kvs

end

/-- Python `str(v)` (used by the f-string `f"{longitude}_{latitude}"`).
Containers are rendered through `json_dumps`; as with `numRepr`, only
determinism matters. -/
def pyStr : JValue → String
  | .null => "None"
  | .bool true => "True"
  | .bool false => "False"
  | .num q => numRepr q
  | .str s => s
  | v => json_dumps v

/-- `null_checker` from the source: the string `"NULL"`, `None`, and the
empty string are mapped to `None`; every other value passes through
unchanged.  (For non-string values the Python comparisons
`value == "NULL"` and `value == ""` are `False`.) -/
def null_checker : JValue → JValue
  | .null => .null
  | .str s => if s = "NULL" ∨ s = "" then .null else .str s
  | v => v

/-- A value stored in an SQLite column.  Only `None`, booleans, numbers
and strings can be bound as SQL parameters (`bindVal`); this is what a
row cell can hold. -/
inductive SVal where
  | null : SVal
  | bool : Bool → SVal
  | num : ℚ → SVal
  | str : String → SVal
deriving DecidableEq, Repr

/-- Binding a Python value as an SQL parameter: `sqlite3` accepts
`None`, `bool`, `int`, `float` and `str`, and raises `InterfaceError`
for lists and dictionaries.  (Column type affinity conversions are
abstracted: the bound value is stored as is.) -/
def bindVal : JValue → Except PyErr SVal
  | .null => .ok .null
  | .bool b => .ok (.bool b)
  | .num q => .ok (.num q)
  | .str s => .ok (.str s)
  | .arr _ => .error .interfaceError
  | .obj _ => .error .interfaceError

/-- A row of the USER relation (`id` is the primary key). -/
structure UserRow where
  id : SVal
  name : SVal
  screen_name : SVal
  description : SVal
  friends_count : SVal
deriving DecidableEq, Repr

/-- A row of the GEO relation (`geo_id` is the primary key). -/
structure GeoRow where
  geo_id : SVal
  type : SVal
  longitude : SVal
  latitude : SVal
deriving DecidableEq, Repr

/-- A row of the TWEET relation (`id_str` is the primary key;
`user_id` and `geo_id` are the foreign-key columns). -/
structure TweetRow where
  created_at : SVal
  id_str : SVal
  text : SVal
  source : SVal
  in_reply_to_user_id : SVal
  in_reply_to_screen_name : SVal
  in_reply_to_status_id : SVal
  retweet_count : SVal
  contributors : SVal
  user_id : SVal
  geo_id : SVal
deriving DecidableEq, Repr

/-- The store: the three relations created by `create_tables`, each a
list of rows in insertion order. -/
structure DB where
  users : List UserRow
  geos : List GeoRow
  tweets : List TweetRow
deriving DecidableEq, Repr

/-- The empty store, as left by `create_tables` on a fresh database. -/
def emptyDB : DB := ⟨[], [], []⟩

/-- `INSERT OR IGNORE` into USER: the row is ignored exactly when an
existing row has an equal, non-NULL primary key.  SQLite permits NULLs
in a (non-INTEGER) PRIMARY KEY column and NULLs never compare equal in
the underlying unique index, so a NULL-keyed row is always inserted. -/
def insertUserRow (rows : List UserRow) (r : UserRow) : List UserRow :=
  if r.id = SVal.null then rows ++ [r]
  else if ∃ r0 ∈ rows, r0.id = r.id then rows else rows ++ [r]

/-- `INSERT OR IGNORE` into GEO (same semantics as `insertUserRow`). -/
def insertGeoRow (rows : List GeoRow) (r : GeoRow) : List GeoRow :=
  if r.geo_id = SVal.null then rows ++ [r]
  else if ∃ r0 ∈ rows, r0.geo_id = r.geo_id then rows else rows ++ [r]

/-- `INSERT OR IGNORE` into TWEET (same semantics as `insertUserRow`). -/
def insertTweetRow (rows : List TweetRow) (r : TweetRow) : List TweetRow :=
  if r.id_str = SVal.null then rows ++ [r]
  else if ∃ r0 ∈ rows, r0.id_str = r.id_str then rows else rows ++ [r]

/-- Execute the three per-record insert statements of
`insert_statements` for one processed record: the USER row, the
optional GEO row, then the TWEET row. -/
def applyEntities (db : DB) (u : UserRow) (g : Option GeoRow) (t : TweetRow) : DB :=
  { users := insertUserRow db.users u
    geos := match g with
            | some gr => insertGeoRow db.geos gr
            | none => db.geos
    tweets := insertTweetRow db.tweets t }

/-- The GEO-extraction block of the file strategies (1C and 1D):

    geo = tweet.get("geo"); geo_id = None
    if geo:
        longitude, latitude = geo["coordinates"]
        geo_id = f"{longitude}_{latitude}"
        geo_tuple = (geo_id, "Point", longitude, latitude)

Returns the optional GEO row together with the `geo_id` value bound
into the TWEET row.  Note there is no check that the coordinates are
numeric, nor that `"coordinates"` is present (a truthy `geo` without it
raises). -/
def geoPartFile (geo : JValue) : Except PyErr (Option GeoRow × SVal) :=
  if truthy geo then
    Except.bind (pySubscript geo "coordinates") fun coords =>
    Except.bind (pyUnpack2 coords) fun lonlat =>
    Except.bind (bindVal lonlat.1) fun blon =>
    Except.bind (bindVal lonlat.2) fun blat =>
    Except.ok (some ⟨SVal.str (pyStr lonlat.1 ++ "_" ++ pyStr lonlat.2),
                     SVal.str "Point", blon, blat⟩,
               SVal.str (pyStr lonlat.1 ++ "_" ++ pyStr lonlat.2))
  else Except.ok (none, SVal.null)

/-- The GEO-extraction block of the web strategy (1B):

    geo = tweet.get("geo")
    if geo and "coordinates" in geo and
       all(isinstance(coord, (int, float)) for coord in geo["coordinates"]):
        longitude, latitude = geo["coordinates"]
        ...

Unlike the file strategies this checks that every element of the
coordinates is numeric, but it does not check the element count: a
numeric coordinate list of length other than two passes the `all(...)`
check and then raises `ValueError` at the unpacking. -/
def geoPartWeb (geo : JValue) : Except PyErr (Option GeoRow × SVal) :=
  if truthy geo then
    Except.bind (pyContains "coordinates" geo) fun hasCoords =>
    if hasCoords then
      Except.bind (pySubscript geo "coordinates") fun coords =>
      Except.bind (pyIterAllNumeric coords) fun allNum =>
      if allNum then
        Except.bind (pyUnpack2 coords) fun lonlat =>
        Except.bind (bindVal lonlat.1) fun blon =>
        Except.bind (bindVal lonlat.2) fun blat =>
        Except.ok (some ⟨SVal.str (pyStr lonlat.1 ++ "_" ++ pyStr lonlat.2),
                         SVal.str "Point", blon, blat⟩,
                   SVal.str (pyStr lonlat.1 ++ "_" ++ pyStr lonlat.2))
      else Except.ok (none, SVal.null)
    else Except.ok (none, SVal.null)
  else Except.ok (none, SVal.null)

/-- Per-record processing of the file strategies (`populate_tables_txt_1C`
and `batch_insert_data_1D`), which access required fields by
subscripting (`tweet["user"]`, `user["id_str"]`, `tweet["created_at"]`,
..., `tweet["retweet_count"]`) and optional fields via `.get`.  The two
strategies differ only in the default of
`tweet.get("contributors", ...)`: `[]` in 1C, absent (`None`) in 1D;
the parameter `d` is that default.  The result is the USER row, the
optional GEO row and the TWEET row whose insertion the strategy then
performs; an error is an uncaught Python exception (the strategies
catch only `json.JSONDecodeError`). -/
def processRecordFile (d : JValue) (tweet : JValue) :
    Except PyErr (UserRow × Option GeoRow × TweetRow) :=
  Except.bind (pySubscript tweet "user") fun user =>
  Except.bind (pySubscript user "id_str") fun uid =>
  Except.bind (pySubscript user "name") fun uname =>
  Except.bind (pySubscript user "screen_name") fun uscreen =>
  Except.bind (pySubscript user "description") fun udesc =>
  Except.bind (pySubscript user "friends_count") fun ufriends =>
  Except.bind (bindVal (null_checker uid)) fun bid =>
  Except.bind (bindVal (null_checker uname)) fun bname =>
  Except.bind (bindVal (null_checker uscreen)) fun bscreen =>
  Except.bind (bindVal (null_checker udesc)) fun bdesc =>
  Except.bind (bindVal (null_checker ufriends)) fun bfriends =>
  Except.bind (pyGet tweet "geo" .null) fun geo =>
  Except.bind (geoPartFile geo) fun gp =>
  Except.bind (pySubscript tweet "created_at") fun ca =>
  Except.bind (pySubscript tweet "id_str") fun tid =>
  Except.bind (pySubscript tweet "text") fun txt =>
  Except.bind (pySubscript tweet "source") fun src =>
  Except.bind (pyGet tweet "in_reply_to_user_id_str" .null) fun r1 =>
  Except.bind (pyGet tweet "in_reply_to_screen_name" .null) fun r2 =>
  Except.bind (pyGet tweet "in_reply_to_status_id_str" .null) fun r3 =>
  Except.bind (pySubscript tweet "retweet_count") fun rt =>
  Except.bind (pyGet tweet "contributors" d) fun contrib =>
  Except.bind (bindVal (null_checker ca)) fun bca =>
  Except.bind (bindVal (null_checker tid)) fun btid =>
  Except.bind (bindVal (null_checker txt)) fun btxt =>
  Except.bind (bindVal (null_checker src)) fun bsrc =>
  Except.bind (bindVal (null_checker r1)) fun br1 =>
  Except.bind (bindVal (null_checker r2)) fun br2 =>
  Except.bind (bindVal (null_checker r3)) fun br3 =>
  Except.bind (bindVal (null_checker rt)) fun brt =>
  Except.bind (bindVal uid) fun buser_id =>
  Except.ok (⟨bid, bname, bscreen, bdesc, bfriends⟩, gp.1,
             ⟨bca, btid, btxt, bsrc, br1, br2, br3, brt,
              SVal.str (json_dumps contrib), buser_id, gp.2⟩)

/-- Per-record processing of the web strategy (`populate_tables_web_1B`),
which accesses every field via `.get` with a `None` (or `{}` for
`user`) default, so missing fields never raise; the TWEET `user_id`
column receives `user.get("id_str")` without `null_checker`, as in the
file strategies. -/
def processRecordWeb (tweet : JValue) :
    Except PyErr (UserRow × Option GeoRow × TweetRow) :=
  Except.bind (pyGet tweet "user" (.obj [])) fun user =>
  Except.bind (pyGet user "id_str" .null) fun uid =>
  Except.bind (pyGet user "name" .null) fun uname =>
  Except.bind (pyGet user "screen_name" .null) fun uscreen =>
  Except.bind (pyGet user "description" .null) fun udesc =>
  Except.bind (pyGet user "friends_count" .null) fun ufriends =>
  Except.bind (bindVal (null_checker uid)) fun bid =>
  Except.bind (bindVal (null_checker uname)) fun bname =>
  Except.bind (bindVal (null_checker uscreen)) fun bscreen =>
  Except.bind (bindVal (null_checker udesc)) fun bdesc =>
  Except.bind (bindVal (null_checker ufriends)) fun bfriends =>
  Except.bind (pyGet tweet "geo" .null) fun geo =>
  Except.bind (geoPartWeb geo) fun gp =>
  Except.bind (pyGet tweet "created_at" .null) fun ca =>
  Except.bind (pyGet tweet "id_str" .null) fun tid =>
  Except.bind (pyGet tweet "text" .null) fun txt =>
  Except.bind (pyGet tweet "source" .null) fun src =>
  Except.bind (pyGet tweet "in_reply_to_user_id_str" .null) fun r1 =>
  Except.bind (pyGet tweet "in_reply_to_screen_name" .null) fun r2 =>
  Except.bind (pyGet tweet "in_reply_to_status_id_str" .null) fun r3 =>
  Except.bind (pyGet tweet "retweet_count" .null) fun rt =>
  Except.bind (pyGet tweet "contributors" .null) fun contrib =>
  Except.bind (bindVal (null_checker ca)) fun bca =>
  Except.bind (bindVal (null_checker tid)) fun btid =>
  Except.bind (bindVal (null_checker txt)) fun btxt =>
  Except.bind (bindVal (null_checker src)) fun bsrc =>
  Except.bind (bindVal (null_checker r1)) fun br1 =>
  Except.bind (bindVal (null_checker r2)) fun br2 =>
  Except.bind (bindVal (null_checker r3)) fun br3 =>
  Except.bind (bindVal (null_checker rt)) fun brt =>
  Except.bind (bindVal uid) fun buser_id =>
  Except.ok (⟨bid, bname, bscreen, bdesc, bfriends⟩, gp.1,
             ⟨bca, btid, btxt, bsrc, br1, br2, br3, brt,
              SVal.str (json_dumps contrib), buser_id, gp.2⟩)

/-- One line of a record source.  `blank` is a line whose `strip()` is
falsy (such a line cannot decode as JSON either); `badJSON` is a
non-blank line on which `json.loads` raises `JSONDecodeError`; `json v`
is a line that decodes to the value `v`. -/
inductive Line where
  | blank : Line
  | badJSON : Line
  | json : JValue → Line

/-- The decoded values of the lines that parse as JSON. -/
def linesValids (lines : List Line) : List JValue :=
  lines.filterMap (fun l => match l with | .json v => some v | _ => none)

/-- The number of lines that fail to decode (blank lines included: the
file strategies have no blank-line guard, and `json.loads` raises on a
blank line). -/
def badLineCount (lines : List Line) : ℕ :=
  (lines.filter (fun l => match l with | .json _ => false | _ => true)).length

/-- The state of a `populate_tables_web_1B` invocation: the store and
the `tweets_processed` counter.  1B maintains no error counter — a
malformed line is skipped by the `except json.JSONDecodeError: continue`
handler without any bookkeeping. -/
structure WebState where
  db : DB
  tweets_processed : ℕ
deriving DecidableEq, Repr

/-- The state of a file-strategy invocation (1C/1D observables): the
store, the `tweets_processed` counter and the `errors_encountered`
counter. -/
structure FileState where
  db : DB
  tweets_processed : ℕ
  errors_encountered : ℕ
deriving DecidableEq, Repr

/-- The counters at the moment an uncaught exception aborts a file
strategy.  The store itself is rolled back: the strategies run inside
`with sqlite3.connect(db) as conn`, whose exit on an exception rolls the
open transaction back, so an aborted invocation leaves the store
unchanged. -/
structure CrashInfo where
  tweets_processed : ℕ
  errors_encountered : ℕ
deriving DecidableEq, Repr

/-- One line of the 1B loop body: blank lines are skipped by the
`if line.strip():` guard, undecodable lines by the `JSONDecodeError`
handler (without any counter), and a decoded record is processed and
written; any other exception aborts the invocation (the error value is
`tweets_processed` at that moment; the uncommitted writes are lost). -/
def stepWeb (s : WebState) (l : Line) : Except ℕ WebState :=
  match l with
  | .blank => .ok s
  | .badJSON => .ok s
  | .json v =>
    match processRecordWeb v with
    | .error _ => .error s.tweets_processed
    | .ok (u, g, t) =>
      .ok { db := applyEntities s.db u g t
            tweets_processed := s.tweets_processed + 1 }

/-- The line loop of `populate_tables_web_1B`: stop once
`tweets_processed >= total_tweets`, otherwise process the next line. -/
def runWebLoop (total : ℕ) : WebState → List Line → Except ℕ WebState
  | s, [] => .ok s
  | s, l :: rest =>
    if total ≤ s.tweets_processed then .ok s
    else
      match stepWeb s l with
      | .error c => .error c
      | .ok s1 => runWebLoop total s1 rest

/-- `populate_tables_web_1B` on a store `db0`, a line source and a
target count: returns the final store and counter, or the crash
information of an uncaught exception. -/
def populate_tables_web_1B (db0 : DB) (lines : List Line) (total : ℕ) :
    Except ℕ WebState :=
  runWebLoop total ⟨db0, 0⟩ lines

/-- One line of the 1C loop body, parameterised by the
`tweet.get("contributors", ...)` default `d`.  A line that fails to
decode (blank lines included) increments `errors_encountered`; a decoded
record is processed and its rows inserted immediately; any other
exception aborts the invocation. -/
def stepFile (d : JValue) (s : FileState) (l : Line) : Except CrashInfo FileState :=
  match l with
  | .blank => .ok { s with errors_encountered := s.errors_encountered + 1 }
  | .badJSON => .ok { s with errors_encountered := s.errors_encountered + 1 }
  | .json v =>
    match processRecordFile d v with
    | .error _ => .error ⟨s.tweets_processed, s.errors_encountered⟩
    | .ok (u, g, t) =>
      .ok { db := applyEntities s.db u g t
            tweets_processed := s.tweets_processed + 1
            errors_encountered := s.errors_encountered }

/-- The line loop shared by the single-row file strategy (and, through
the canonicalisation below, the batched one): stop once
`tweets_processed >= total_tweets`, otherwise process the next line. -/
def runFileLoop (d : JValue) (total : ℕ) :
    FileState → List Line → Except CrashInfo FileState
  | s, [] => .ok s
  | s, l :: rest =>
    if total ≤ s.tweets_processed then .ok s
    else
      match stepFile d s l with
      | .error c => .error c
      | .ok s1 => runFileLoop d total s1 rest

/-- `populate_tables_txt_1C` on a store `db0`: single-row inserts,
`contributors` defaulting to `[]` when absent. -/
def populate_tables_txt_1C (db0 : DB) (lines : List Line) (total : ℕ) :
    Except CrashInfo FileState :=
  runFileLoop (.arr []) total ⟨db0, 0, 0⟩ lines

/-- The state of a `batch_insert_data_1D` invocation: the store, the
three same-kind accumulators and the two counters. -/
structure BatchState where
  db : DB
  users_batch : List UserRow
  geo_batch : List GeoRow
  tweets_batch : List TweetRow
  tweets_processed : ℕ
  errors_encountered : ℕ
deriving DecidableEq, Repr

/-- `cursor.executemany` for the three accumulators: each batch is a
sequence of single-row `INSERT OR IGNORE`s executed in order, users
first, then geos, then tweets. -/
def applyBatches (db : DB) (us : List UserRow) (gs : List GeoRow)
    (ts : List TweetRow) : DB :=
  { users := us.foldl insertUserRow db.users
    geos := gs.foldl insertGeoRow db.geos
    tweets := ts.foldl insertTweetRow db.tweets }

/-- Flush the three accumulators into the store and reset them. -/
def flushBatches (s : BatchState) : BatchState :=
  { db := applyBatches s.db s.users_batch s.geo_batch s.tweets_batch
    users_batch := []
    geo_batch := []
    tweets_batch := []
    tweets_processed := s.tweets_processed
    errors_encountered := s.errors_encountered }

/-- Append one processed record's rows to the accumulators and advance
the success counter (the body of a successful 1D iteration before the
flush test). -/
def pushBatch (s : BatchState) (u : UserRow) (g : Option GeoRow)
    (t : TweetRow) : BatchState :=
  { s with users_batch := s.users_batch ++ [u]
           geo_batch := s.geo_batch ++ (match g with
                                        | some gr => [gr]
                                        | none => [])
           tweets_batch := s.tweets_batch ++ [t]
           tweets_processed := s.tweets_processed + 1 }

/-- One line of the 1D loop body: a decoded record's rows are appended
to the accumulators (`contributors` defaults to `None` here, there is no
`[]` default as in 1C) and the accumulators are flushed together when
the USER or TWEET accumulator reaches `batch_size`. -/
def stepBatch (batch_size : ℕ) (s : BatchState) (l : Line) :
    Except CrashInfo BatchState :=
  match l with
  | .blank => .ok { s with errors_encountered := s.errors_encountered + 1 }
  | .badJSON => .ok { s with errors_encountered := s.errors_encountered + 1 }
  | .json v =>
    match processRecordFile .null v with
    | .error _ => .error ⟨s.tweets_processed, s.errors_encountered⟩
    | .ok (u, g, t) =>
      let s1 := pushBatch s u g t
      if batch_size ≤ s1.users_batch.length ∨ batch_size ≤ s1.tweets_batch.length
      then .ok (flushBatches s1)
      else .ok s1

/-- The line loop of `batch_insert_data_1D` (before the final flush). -/
def runBatchLoop (batch_size total : ℕ) :
    BatchState → List Line → Except CrashInfo BatchState
  | s, [] => .ok s
  | s, l :: rest =>
    if total ≤ s.tweets_processed then .ok s
    else
      match stepBatch batch_size s l with
      | .error c => .error c
      | .ok s1 => runBatchLoop batch_size total s1 rest

/-- `batch_insert_data_1D` on a store `db0`: the line loop followed by
the final flush of any non-empty remainder
(`if users_batch or geo_batch or tweets_batch: executemany(...)`). -/
def batch_insert_data_1D (db0 : DB) (lines : List Line) (total batch_size : ℕ) :
    Except CrashInfo BatchState :=
  match runBatchLoop batch_size total ⟨db0, [], [], [], 0, 0⟩ lines with
  | .error c => .error c
  | .ok s =>
    if s.users_batch.isEmpty ∧ s.geo_batch.isEmpty ∧ s.tweets_batch.isEmpty
    then .ok s
    else .ok (flushBatches s)

/-- View a batch state as if its pending accumulators were already
flushed: this is the projection under which the batched strategy
coincides with an immediate-insert run. -/
def projectBatch (s : BatchState) : FileState :=
  { db := applyBatches s.db s.users_batch s.geo_batch s.tweets_batch
    tweets_processed := s.tweets_processed
    errors_encountered := s.errors_encountered }

/-- Embed a file state as a batch state with empty accumulators. -/
def fileToBatch (s : FileState) : BatchState :=
  ⟨s.db, [], [], [], s.tweets_processed, s.errors_encountered⟩

/-- What one outer pass of `execute_query_iterations_2B` observably
does: the number of executions of the query inside its timed window,
and the dictionary key under which that pass's elapsed time is stored.
The source's inner loop is `for count in iteration_counts` — it reuses
the outer variable — so every pass executes the query once per element
of `iteration_counts` (not `count` times), and after the inner loop
`count` is the last element of `iteration_counts`, which is therefore
the key every pass assigns its elapsed time to. -/
structure Pass2B where
  key : ℕ
  execs : ℕ
deriving DecidableEq, Repr

/-- The passes performed by `execute_query_iterations_2B` on a list of
iteration counts (elapsed times themselves are outside the embedding;
`execs` is the work content of the timed window). -/
def execute_query_iterations_2B (iteration_counts : List ℕ) : List Pass2B :=
  iteration_counts.map (fun c =>
    ⟨(iteration_counts.getLast?).getD c, iteration_counts.length⟩)

/-- Inversion of a successful `Except.bind`. -/
theorem except_bind_ok {ε α β : Type} {x : Except ε α} {f : α → Except ε β}
    {b : β} : Except.bind x f = .ok b ↔ ∃ a, x = .ok a ∧ f a = .ok b := by
  cases x <;> simp [Except.bind]

/-- A subscript that succeeds certifies that the key is present. -/
theorem pySubscript_ok_hasKey {v : JValue} {k : String} {x : JValue}
    (h : pySubscript v k = .ok x) : objHasKey v k = true := by
  cases v <;> simp [pySubscript] at h ⊢ <;> try exact h.elim
  case obj fields =>
    cases hl : objLookup fields k <;> simp [objHasKey, hl] at h ⊢

/-- A `dict.get` with a present key ignores its default. -/
theorem pyGet_hasKey_irrel {v : JValue} {k : String}
    (h : objHasKey v k = true) (d1 d2 : JValue) :
    pyGet v k d1 = pyGet v k d2 := by
  cases v <;> simp [objHasKey] at h
  case obj fields =>
    cases hl : objLookup fields k <;> simp [hl] at h <;> simp [pyGet, hl]

/-- Inversion of a successful GEO extraction in the file strategies: a
falsy `geo` yields no row and a NULL reference; a truthy `geo` yields a
row built from whatever two values the coordinates unpack into (with no
numericity requirement), with the row's key equal to the TWEET row's
`geo_id` reference. -/
theorem geoPartFile_ok_inv {geo : JValue} {gp : Option GeoRow × SVal}
    (h : geoPartFile geo = .ok gp) :
    (truthy geo = false → gp = (none, SVal.null)) ∧
    (truthy geo = true → ∃ coords lonlat blon blat,
      pySubscript geo "coordinates" = .ok coords ∧
      pyUnpack2 coords = .ok lonlat ∧
      bindVal lonlat.1 = .ok blon ∧ bindVal lonlat.2 = .ok blat ∧
      gp = (some ⟨SVal.str (pyStr lonlat.1 ++ "_" ++ pyStr lonlat.2),
                  SVal.str "Point", blon, blat⟩,
            SVal.str (pyStr lonlat.1 ++ "_" ++ pyStr lonlat.2))) := by
  by_cases ht : truthy geo
  · simp only [geoPartFile, ht, if_true, except_bind_ok] at h
    obtain ⟨coords, h1, lonlat, h2, blon, h3, blat, h4, h5⟩ := h
    refine ⟨fun hf => by simp [ht] at hf, fun _ => ⟨coords, lonlat, blon, blat, h1, h2, h3, h4, ?_⟩⟩
    exact (Except.ok.injEq _ _).mp h5.symm
  · simp only [geoPartFile, ht, if_false] at h
    refine ⟨fun _ => ?_, fun htr => absurd htr ht⟩
    exact ((Except.ok.injEq _ _).mp h).symm

/-- Inversion of a successful GEO extraction in the web strategy: the
complete decision tree of
`if geo and "coordinates" in geo and all(isinstance(...) ...)`. -/
theorem geoPartWeb_ok_inv {geo : JValue} {gp : Option GeoRow × SVal}
    (h : geoPartWeb geo = .ok gp) :
    (truthy geo = false → gp = (none, SVal.null)) ∧
    (truthy geo = true → ∃ hc, pyContains "coordinates" geo = .ok hc ∧
      ((hc = false ∧ gp = (none, SVal.null)) ∨
       (hc = true ∧ ∃ coords allNum,
         pySubscript geo "coordinates" = .ok coords ∧
         pyIterAllNumeric coords = .ok allNum ∧
         ((allNum = false ∧ gp = (none, SVal.null)) ∨
          (allNum = true ∧ ∃ lonlat blon blat,
            pyUnpack2 coords = .ok lonlat ∧
            bindVal lonlat.1 = .ok blon ∧ bindVal lonlat.2 = .ok blat ∧
            gp = (some ⟨SVal.str (pyStr lonlat.1 ++ "_" ++ pyStr lonlat.2),
                        SVal.str "Point", blon, blat⟩,
                  SVal.str (pyStr lonlat.1 ++ "_" ++ pyStr lonlat.2))))))) := by
  by_cases ht : truthy geo
  · simp only [geoPartWeb, ht, if_true, except_bind_ok] at h
    obtain ⟨hc, h1, h⟩ := h
    refine ⟨fun hf => by simp [ht] at hf, fun _ => ⟨hc, h1, ?_⟩⟩
    cases hc
    · left
      exact ⟨rfl, by simpa using ((Except.ok.injEq _ _).mp h).symm⟩
    · right
      simp only [if_true, except_bind_ok] at h
      obtain ⟨coords, h2, allNum, h3, h⟩ := h
      refine ⟨rfl, coords, allNum, h2, h3, ?_⟩
      cases allNum
      · exact Or.inl ⟨rfl, by simpa using ((Except.ok.injEq _ _).mp h).symm⟩
      · simp only [if_true, except_bind_ok] at h
        obtain ⟨lonlat, h4, blon, h5, blat, h6, h7⟩ := h
        exact Or.inr ⟨rfl, lonlat, blon, blat, h4, h5, h6,
          ((Except.ok.injEq _ _).mp h7).symm⟩
  · simp only [geoPartWeb, ht, if_false] at h
    refine ⟨fun _ => ((Except.ok.injEq _ _).mp h).symm, fun htr => absurd htr ht⟩

/-- Inversion of a successful per-record processing in the file
strategies: every required key was present (so its subscript
succeeded), the USER `id` and TWEET `id_str` columns hold the bound
`null_checker` image of the raw identifiers while the TWEET `user_id`
foreign key holds the raw identifier bound unchanged, the GEO part and
the TWEET `geo_id` come from `geoPartFile`, and the `contributors`
column is the `json_dumps` serialisation of the fetched value. -/
theorem processRecordFile_ok_inv {d v : JValue} {u : UserRow}
    {g : Option GeoRow} {t : TweetRow}
    (h : processRecordFile d v = .ok (u, g, t)) :
    ∃ userJ uidJ geoJ gp caJ tidJ rtJ contribJ,
      pySubscript v "user" = .ok userJ ∧
      pySubscript userJ "id_str" = .ok uidJ ∧
      bindVal (null_checker uidJ) = .ok u.id ∧
      bindVal uidJ = .ok t.user_id ∧
      pyGet v "geo" .null = .ok geoJ ∧
      geoPartFile geoJ = .ok gp ∧
      g = gp.1 ∧ t.geo_id = gp.2 ∧
      pySubscript v "created_at" = .ok caJ ∧
      bindVal (null_checker caJ) = .ok t.created_at ∧
      pySubscript v "id_str" = .ok tidJ ∧
      bindVal (null_checker tidJ) = .ok t.id_str ∧
      pySubscript v "retweet_count" = .ok rtJ ∧
      bindVal (null_checker rtJ) = .ok t.retweet_count ∧
      pyGet v "contributors" d = .ok contribJ ∧
      t.contributors = SVal.str (json_dumps contribJ) := by
  simp only [processRecordFile, except_bind_ok] at h
  obtain ⟨userJ, h1, uidJ, h2, unameJ, h3, uscrJ, h4, udescJ, h5, ufrJ, h6,
    bid, hb1, bname, hb2, bscreen, hb3, bdesc, hb4, bfriends, hb5,
    geoJ, hg1, gp, hg2, caJ, hc1, tidJ, hc2, txtJ, hc3, srcJ, hc4,
    r1J, hr1, r2J, hr2, r3J, hr3, rtJ, hc5, contribJ, hc6,
    bca, hd1, btid, hd2, btxt, hd3, bsrc, hd4, br1, hd5, br2, hd6, br3, hd7,
    brt, hd8, buser_id, hd9, hfin⟩ := h
  have hp := (Except.ok.injEq _ _).mp hfin
  have hu := congrArg Prod.fst hp
  have hg := congrArg (fun p => p.2.1) hp
  have ht := congrArg (fun p => p.2.2) hp
  simp only at hu hg ht
  subst hu; subst hg; subst ht
  exact ⟨userJ, uidJ, geoJ, gp, caJ, tidJ, rtJ, contribJ,
    h1, h2, hb1, hd9, hg1, hg2, rfl, rfl, hc1, hd1, hc2, hd2, hc5, hd8, hc6, rfl⟩

/-- Inversion of a successful per-record processing in the web
strategy: the same column relationships as in the file strategies, with
fields fetched through defaulted `.get` calls and the GEO part coming
from `geoPartWeb`. -/
theorem processRecordWeb_ok_inv {v : JValue} {u : UserRow}
    {g : Option GeoRow} {t : TweetRow}
    (h : processRecordWeb v = .ok (u, g, t)) :
    ∃ userJ uidJ geoJ gp tidJ contribJ,
      pyGet v "user" (.obj []) = .ok userJ ∧
      pyGet userJ "id_str" .null = .ok uidJ ∧
      bindVal (null_checker uidJ) = .ok u.id ∧
      bindVal uidJ = .ok t.user_id ∧
      pyGet v "geo" .null = .ok geoJ ∧
      geoPartWeb geoJ = .ok gp ∧
      g = gp.1 ∧ t.geo_id = gp.2 ∧
      pyGet v "id_str" .null = .ok tidJ ∧
      bindVal (null_checker tidJ) = .ok t.id_str ∧
      pyGet v "contributors" .null = .ok contribJ ∧
      t.contributors = SVal.str (json_dumps contribJ) := by
  simp only [processRecordWeb, except_bind_ok] at h
  obtain ⟨userJ, h1, uidJ, h2, unameJ, h3, uscrJ, h4, udescJ, h5, ufrJ, h6,
    bid, hb1, bname, hb2, bscreen, hb3, bdesc, hb4, bfriends, hb5,
    geoJ, hg1, gp, hg2, caJ, hc1, tidJ, hc2, txtJ, hc3, srcJ, hc4,
    r1J, hr1, r2J, hr2, r3J, hr3, rtJ, hc5, contribJ, hc6,
    bca, hd1, btid, hd2, btxt, hd3, bsrc, hd4, br1, hd5, br2, hd6, br3, hd7,
    brt, hd8, buser_id, hd9, hfin⟩ := h
  have hp := (Except.ok.injEq _ _).mp hfin
  have hu := congrArg Prod.fst hp
  have hg := congrArg (fun p => p.2.1) hp
  have ht := congrArg (fun p => p.2.2) hp
  simp only at hu hg ht
  subst hu; subst hg; subst ht
  exact ⟨userJ, uidJ, geoJ, gp, tidJ, contribJ,
    h1, h2, hb1, hd9, hg1, hg2, rfl, rfl, hc2, hd2, hc6, rfl⟩

/-- A USER insert whose non-NULL key is already present is ignored. -/
theorem insertUserRow_ignore {rows : List UserRow} {r : UserRow}
    (hnn : r.id ≠ SVal.null) (hmem : ∃ r0 ∈ rows, r0.id = r.id) :
    insertUserRow rows r = rows := by
  simp [insertUserRow, hnn, hmem]

/-- A GEO insert whose non-NULL key is already present is ignored. -/
theorem insertGeoRow_ignore {rows : List GeoRow} {r : GeoRow}
    (hnn : r.geo_id ≠ SVal.null) (hmem : ∃ r0 ∈ rows, r0.geo_id = r.geo_id) :
    insertGeoRow rows r = rows := by
  simp [insertGeoRow, hnn, hmem]

/-- A TWEET insert whose non-NULL key is already present is ignored. -/
theorem insertTweetRow_ignore {rows : List TweetRow} {r : TweetRow}
    (hnn : r.id_str ≠ SVal.null) (hmem : ∃ r0 ∈ rows, r0.id_str = r.id_str) :
    insertTweetRow rows r = rows := by
  simp [insertTweetRow, hnn, hmem]

/-- A USER insert whose key is NULL, or fresh, appends the row. -/
theorem insertUserRow_append {rows : List UserRow} {r : UserRow}
    (h : r.id = SVal.null ∨ ¬∃ r0 ∈ rows, r0.id = r.id) :
    insertUserRow rows r = rows ++ [r] := by
  rcases h with h | h
  · simp [insertUserRow, h]
  · by_cases hnn : r.id = SVal.null
    · simp [insertUserRow, hnn]
    · simp [insertUserRow, hnn, h]

/-- A GEO insert whose key is NULL, or fresh, appends the row. -/
theorem insertGeoRow_append {rows : List GeoRow} {r : GeoRow}
    (h : r.geo_id = SVal.null ∨ ¬∃ r0 ∈ rows, r0.geo_id = r.geo_id) :
    insertGeoRow rows r = rows ++ [r] := by
  rcases h with h | h
  · simp [insertGeoRow, h]
  · by_cases hnn : r.geo_id = SVal.null
    · simp [insertGeoRow, hnn]
    · simp [insertGeoRow, hnn, h]

/-- A TWEET insert whose key is NULL, or fresh, appends the row. -/
theorem insertTweetRow_append {rows : List TweetRow} {r : TweetRow}
    (h : r.id_str = SVal.null ∨ ¬∃ r0 ∈ rows, r0.id_str = r.id_str) :
    insertTweetRow rows r = rows ++ [r] := by
  rcases h with h | h
  · simp [insertTweetRow, h]
  · by_cases hnn : r.id_str = SVal.null
    · simp [insertTweetRow, hnn]
    · simp [insertTweetRow, hnn, h]

/-- Ingesting the same processed record's rows twice leaves the store
as after the first ingestion, provided the record's keys are not NULL:
the second pass's three `INSERT OR IGNORE`s all find their keys
present. -/
theorem applyEntities_idem {db : DB} {u : UserRow} {g : Option GeoRow}
    {t : TweetRow} (hu : u.id ≠ SVal.null) (ht : t.id_str ≠ SVal.null)
    (hg : ∀ gr ∈ g, gr.geo_id ≠ SVal.null) :
    applyEntities (applyEntities db u g t) u g t = applyEntities db u g t := by
  have huser : insertUserRow (insertUserRow db.users u) u = insertUserRow db.users u := by
    apply insertUserRow_ignore hu
    by_cases hmem : ∃ r0 ∈ db.users, r0.id = u.id
    · obtain ⟨r0, hr0, hid⟩ := hmem
      refine ⟨r0, ?_, hid⟩
      rw [insertUserRow_ignore hu ⟨r0, hr0, hid⟩]
      exact hr0
    · refine ⟨u, ?_, rfl⟩
      rw [insertUserRow_append (Or.inr hmem)]
      simp
  have htweet : insertTweetRow (insertTweetRow db.tweets t) t = insertTweetRow db.tweets t := by
    apply insertTweetRow_ignore ht
    by_cases hmem : ∃ r0 ∈ db.tweets, r0.id_str = t.id_str
    · obtain ⟨r0, hr0, hid⟩ := hmem
      refine ⟨r0, ?_, hid⟩
      rw [insertTweetRow_ignore ht ⟨r0, hr0, hid⟩]
      exact hr0
    · refine ⟨t, ?_, rfl⟩
      rw [insertTweetRow_append (Or.inr hmem)]
      simp
  cases g with
  | none => simp [applyEntities, huser, htweet]
  | some gr =>
    have hgnn : gr.geo_id ≠ SVal.null := hg gr (by simp)
    have hgeo : insertGeoRow (insertGeoRow db.geos gr) gr = insertGeoRow db.geos gr := by
      apply insertGeoRow_ignore hgnn
      by_cases hmem : ∃ r0 ∈ db.geos, r0.geo_id = gr.geo_id
      · obtain ⟨r0, hr0, hid⟩ := hmem
        refine ⟨r0, ?_, hid⟩
        rw [insertGeoRow_ignore hgnn ⟨r0, hr0, hid⟩]
        exact hr0
      · refine ⟨gr, ?_, rfl⟩
        rw [insertGeoRow_append (Or.inr hmem)]
        simp
    simp [applyEntities, huser, htweet, hgeo]

/-- Whether an `Except` computation succeeded. -/
def exceptOk {ε α : Type} : Except ε α → Bool
  | .ok _ => true
  | .error _ => false

/-- The TWEET primary key a record would be stored under by a file
strategy with contributors default `d` (NULL for a record whose
processing aborts; only used under a hypothesis that it does not). -/
def tweetIdOf (d : JValue) (v : JValue) : SVal :=
  match processRecordFile d v with
  | .ok r => r.2.2.id_str
  | .error _ => SVal.null

/-- The TWEET primary keys of the decodable lines of a source. -/
def tweetIdsOf (d : JValue) (lines : List Line) : List SVal :=
  (linesValids lines).map (tweetIdOf d)

/-- Once the target is reached the loop breaks immediately. -/
theorem runFileLoop_stop {d : JValue} {total : ℕ} {s : FileState}
    (h : total ≤ s.tweets_processed) (ls : List Line) :
    runFileLoop d total s ls = .ok s := by
  cases ls with
  | nil => rfl
  | cons l rest => simp [runFileLoop, h]

/-- The loop over a concatenated source chains the loop over its
parts (the break test is stable: once reached, it stays reached). -/
theorem runFileLoop_append (d : JValue) (total : ℕ) :
    ∀ (a b : List Line) (s : FileState),
    runFileLoop d total s (a ++ b) =
      match runFileLoop d total s a with
      | .ok s1 => runFileLoop d total s1 b
      | .error c => .error c := by
  intro a
  induction a with
  | nil => intro b s; rfl
  | cons l rest ih =>
    intro b s
    by_cases hbrk : total ≤ s.tweets_processed
    · simp [runFileLoop, hbrk, runFileLoop_stop hbrk]
    · simp only [List.cons_append, runFileLoop, hbrk, if_false]
      cases hst : stepFile d s l with
      | error c => simp
      | ok s1 => simpa using ih b s1

/-- Running the file loop over lines whose decodable records all
process successfully, with strictly fewer successes available than the
target and with pairwise-fresh (or NULL) TWEET keys: no break, no
abort, each decodable line advances `tweets_processed` and appends its
TWEET row, each undecodable line increments `errors_encountered`. -/
theorem runFileLoop_clean (d : JValue) (total : ℕ) :
    ∀ (ls : List Line) (s : FileState),
    (∀ v ∈ linesValids ls, exceptOk (processRecordFile d v) = true) →
    s.tweets_processed + (linesValids ls).length < total →
    (((s.db.tweets.map (fun r => r.id_str)) ++ tweetIdsOf d ls).Pairwise
        (fun a b => a ≠ b ∨ a = SVal.null)) →
    ∃ s2, runFileLoop d total s ls = .ok s2 ∧
      s2.tweets_processed = s.tweets_processed + (linesValids ls).length ∧
      s2.errors_encountered = s.errors_encountered + badLineCount ls ∧
      s2.db.tweets.map (fun r => r.id_str)
        = s.db.tweets.map (fun r => r.id_str) ++ tweetIdsOf d ls := by
  intro ls
  induction ls with
  | nil =>
    intro s _ _ _
    exact ⟨s, rfl, by simp [linesValids], by simp [badLineCount], by simp [tweetIdsOf, linesValids]⟩
  | cons l rest ih =>
    intro s hok hcap hpw
    have hlt : s.tweets_processed < total :=
      lt_of_le_of_lt (Nat.le_add_right _ _) hcap
    have hbrk : ¬ total ≤ s.tweets_processed := by omega
    cases l with
    | blank =>
      have hv : linesValids (Line.blank :: rest) = linesValids rest := by
        simp [linesValids]
      have hb : badLineCount (Line.blank :: rest) = badLineCount rest + 1 := by
        simp [badLineCount, List.filter]
      have hids : tweetIdsOf d (Line.blank :: rest) = tweetIdsOf d rest := by
        simp [tweetIdsOf, linesValids]
      obtain ⟨s2, hrun, hp, he, hdb⟩ := ih
        { s with errors_encountered := s.errors_encountered + 1 }
        (by simpa [hv] using hok) (by simpa [hv] using hcap)
        (by simpa [hids] using hpw)
      refine ⟨s2, ?_, by simpa [hv] using hp, by simp only [he, hb]; omega,
        by simpa [hids] using hdb⟩
      simpa [runFileLoop, hbrk, stepFile] using hrun
    | badJSON =>
      have hv : linesValids (Line.badJSON :: rest) = linesValids rest := by
        simp [linesValids]
      have hb : badLineCount (Line.badJSON :: rest) = badLineCount rest + 1 := by
        simp [badLineCount, List.filter]
      have hids : tweetIdsOf d (Line.badJSON :: rest) = tweetIdsOf d rest := by
        simp [tweetIdsOf, linesValids]
      obtain ⟨s2, hrun, hp, he, hdb⟩ := ih
        { s with errors_encountered := s.errors_encountered + 1 }
        (by simpa [hv] using hok) (by simpa [hv] using hcap)
        (by simpa [hids] using hpw)
      refine ⟨s2, ?_, by simpa [hv] using hp, by simp only [he, hb]; omega,
        by simpa [hids] using hdb⟩
      simpa [runFileLoop, hbrk, stepFile] using hrun
    | json v =>
      have hv : linesValids (Line.json v :: rest) = v :: linesValids rest := by
        simp [linesValids]
      have hb : badLineCount (Line.json v :: rest) = badLineCount rest := by
        simp [badLineCount, List.filter]
      have hokv : exceptOk (processRecordFile d v) = true := by
        apply hok; simp [hv]
      obtain ⟨r, hr⟩ : ∃ r, processRecordFile d v = .ok r := by
        cases hpr : processRecordFile d v with
        | ok r => exact ⟨r, rfl⟩
        | error e => rw [hpr] at hokv; simp [exceptOk] at hokv
      obtain ⟨u, g, t⟩ := r
      have hid : tweetIdOf d v = t.id_str := by
        simp [tweetIdOf, hr]
      have hids : tweetIdsOf d (Line.json v :: rest)
          = t.id_str :: tweetIdsOf d rest := by
        simp [tweetIdsOf, hv, hid]
      rw [hids] at hpw
      rw [List.append_cons] at hpw
      have hfresh : t.id_str = SVal.null ∨
          ¬∃ r0 ∈ s.db.tweets, r0.id_str = t.id_str := by
        by_cases hnn : t.id_str = SVal.null
        · exact Or.inl hnn
        · refine Or.inr ?_
          rintro ⟨r0, hr0, hideq⟩
          have hcross := (List.pairwise_append.mp
            ((List.pairwise_append.mp hpw).1)).2.2
          have := hcross r0.id_str (by simpa using ⟨r0, hr0, rfl⟩)
            t.id_str (by simp)
          rcases this with hne | hnullx
          · exact hne hideq
          · exact hnn (hideq ▸ hnullx)
      have happ : insertTweetRow s.db.tweets t = s.db.tweets ++ [t] :=
        insertTweetRow_append hfresh
      set s1 : FileState :=
        { db := applyEntities s.db u g t
          tweets_processed := s.tweets_processed + 1
          errors_encountered := s.errors_encountered } with hs1
      have hdb1 : s1.db.tweets.map (fun r => r.id_str)
          = (s.db.tweets.map (fun r => r.id_str)) ++ [t.id_str] := by
        simp [hs1, applyEntities, happ]
      obtain ⟨s2, hrun, hp, he, hdb⟩ := ih s1
        (by intro w hw; exact hok w (by simp [hv, hw]))
        (by simp [hs1, hv] at hcap ⊢; omega)
        (by rw [hdb1]; simpa using hpw)
      refine ⟨s2, ?_, by simp [hp, hs1, hv]; omega, by simpa [hb, hs1] using he, ?_⟩
      · simpa [runFileLoop, hbrk, stepFile, hr, hs1] using hrun
      · rw [hdb, hdb1, hids]
        simp


/-- Executing empty batches changes nothing. -/
theorem applyBatches_nil (db : DB) : applyBatches db [] [] [] = db := rfl

/-- Flushing commutes with the as-if-flushed view of a batch state. -/
theorem projectBatch_flush (s : BatchState) :
    projectBatch (flushBatches s) = projectBatch s := by
  simp [projectBatch, flushBatches, applyBatches]

/-- Appending one processed record's rows to the accumulators has, under
the as-if-flushed view, exactly the effect of executing its three
single-row inserts immediately. -/
theorem projectBatch_push (s : BatchState) (u : UserRow) (g : Option GeoRow)
    (t : TweetRow) :
    projectBatch (pushBatch s u g t)
      = { db := applyEntities (projectBatch s).db u g t
          tweets_processed := s.tweets_processed + 1
          errors_encountered := s.errors_encountered } := by
  cases g <;>
    simp [projectBatch, pushBatch, applyBatches, applyEntities, List.foldl_append]

/-- Under the as-if-flushed view, the batched loop is the immediate
insert loop with contributors default `None`: the accumulators only
defer the inserts, they do not change their per-relation order or
content, and the break test and both counters live outside the
accumulators. -/
theorem runBatchLoop_project (batch_size total : ℕ) :
    ∀ (ls : List Line) (s : BatchState),
    Except.map projectBatch (runBatchLoop batch_size total s ls)
      = runFileLoop .null total (projectBatch s) ls := by
  intro ls
  induction ls with
  | nil => intro s; rfl
  | cons l rest ih =>
    intro s
    have hpp : (projectBatch s).tweets_processed = s.tweets_processed := rfl
    by_cases hbrk : total ≤ s.tweets_processed
    · simp [runBatchLoop, runFileLoop, hbrk, hpp, Except.map]
    · cases l with
      | blank =>
        have hpe : projectBatch { s with errors_encountered := s.errors_encountered + 1 }
            = { projectBatch s with
                errors_encountered := (projectBatch s).errors_encountered + 1 } := by
          simp [projectBatch]
        simpa [runBatchLoop, runFileLoop, hbrk, hpp, stepBatch, stepFile, hpe]
          using ih { s with errors_encountered := s.errors_encountered + 1 }
      | badJSON =>
        have hpe : projectBatch { s with errors_encountered := s.errors_encountered + 1 }
            = { projectBatch s with
                errors_encountered := (projectBatch s).errors_encountered + 1 } := by
          simp [projectBatch]
        simpa [runBatchLoop, runFileLoop, hbrk, hpp, stepBatch, stepFile, hpe]
          using ih { s with errors_encountered := s.errors_encountered + 1 }
      | json v =>
        cases hpr : processRecordFile .null v with
        | error e =>
          simp [runBatchLoop, runFileLoop, hbrk, hpp, stepBatch, stepFile,
            hpr, Except.map, projectBatch]
        | ok r =>
          obtain ⟨u, g, t⟩ := r
          have hfile : runFileLoop .null total (projectBatch s) (Line.json v :: rest)
              = runFileLoop .null total
                  { db := applyEntities (projectBatch s).db u g t
                    tweets_processed := s.tweets_processed + 1
                    errors_encountered := s.errors_encountered } rest := by
            rw [runFileLoop]
            simp only [hpp, hbrk, if_false, stepFile, hpr]
            rfl
          by_cases hfl : batch_size ≤ (pushBatch s u g t).users_batch.length ∨
              batch_size ≤ (pushBatch s u g t).tweets_batch.length
          · have hstep : stepBatch batch_size s (Line.json v)
                = .ok (flushBatches (pushBatch s u g t)) := by
              simp [stepBatch, hpr, hfl]
            rw [runBatchLoop]
            simp only [hbrk, if_false, hstep]
            rw [ih (flushBatches (pushBatch s u g t)), projectBatch_flush,
              projectBatch_push, hfile]
          · have hstep : stepBatch batch_size s (Line.json v)
                = .ok (pushBatch s u g t) := by
              simp [stepBatch, hpr, hfl]
            rw [runBatchLoop]
            simp only [hbrk, if_false, hstep]
            rw [ih (pushBatch s u g t), projectBatch_push, hfile]

/-- Flushing a batch state gives exactly the embedding of its
as-if-flushed view. -/
theorem flushBatches_eq (s : BatchState) :
    flushBatches s = fileToBatch (projectBatch s) := rfl

/-- The batched strategy, whatever its batch size, computes the
immediate-insert run with contributors default `None`: its final state
is the final immediate-insert state with empty accumulators, and it
aborts exactly when the immediate-insert run aborts, with the same
counters. -/
theorem batch_insert_canonical (db0 : DB) (lines : List Line)
    (total batch_size : ℕ) :
    batch_insert_data_1D db0 lines total batch_size
      = Except.map fileToBatch (runFileLoop .null total ⟨db0, 0, 0⟩ lines) := by
  have hproj : projectBatch ⟨db0, [], [], [], 0, 0⟩ = ⟨db0, 0, 0⟩ := by
    simp [projectBatch, applyBatches_nil]
  have hloop := runBatchLoop_project batch_size total lines ⟨db0, [], [], [], 0, 0⟩
  rw [hproj] at hloop
  rw [batch_insert_data_1D, ← hloop]
  cases hrun : runBatchLoop batch_size total ⟨db0, [], [], [], 0, 0⟩ lines with
  | error c => simp [Except.map]
  | ok s =>
    simp only [Except.map]
    by_cases hemp : s.users_batch.isEmpty ∧ s.geo_batch.isEmpty ∧ s.tweets_batch.isEmpty
    · rw [if_pos hemp]
      obtain ⟨h1, h2, h3⟩ := hemp
      rw [List.isEmpty_iff] at h1 h2 h3
      cases s with
      | mk db ub gb tb p e =>
        simp only at h1 h2 h3
        subst h1; subst h2; subst h3
        simp [fileToBatch, projectBatch, applyBatches_nil]
    · rw [if_neg hemp, flushBatches_eq]

/-- A blank line contributes no decoded record. -/
theorem linesValids_cons_blank (rest : List Line) :
    linesValids (Line.blank :: rest) = linesValids rest := rfl

/-- An undecodable line contributes no decoded record. -/
theorem linesValids_cons_badJSON (rest : List Line) :
    linesValids (Line.badJSON :: rest) = linesValids rest := rfl

/-- A decodable line contributes its record. -/
theorem linesValids_cons_json (v : JValue) (rest : List Line) :
    linesValids (Line.json v :: rest) = v :: linesValids rest := rfl

/-- The contributors default is the only difference between the
per-record processing of 1C and 1D, and it is irrelevant for a record
that carries a `contributors` key. -/
theorem processRecordFile_contrib_irrel {v : JValue}
    (hv : objHasKey v "contributors" = true) (d1 d2 : JValue) :
    processRecordFile d1 v = processRecordFile d2 v := by
  simp only [processRecordFile, pyGet_hasKey_irrel hv d1 d2]

/-- On a source whose decodable records all carry a `contributors` key,
the file loop does not depend on the contributors default. -/
theorem runFileLoop_contrib_irrel (d1 d2 : JValue) (total : ℕ) :
    ∀ (ls : List Line) (s : FileState),
    (∀ v ∈ linesValids ls, objHasKey v "contributors" = true) →
    runFileLoop d1 total s ls = runFileLoop d2 total s ls := by
  intro ls
  induction ls with
  | nil => intro s _; rfl
  | cons l rest ih =>
    intro s hc
    by_cases hbrk : total ≤ s.tweets_processed
    · simp [runFileLoop, hbrk]
    · cases l with
      | blank =>
        simpa [runFileLoop, hbrk, stepFile] using
          ih { s with errors_encountered := s.errors_encountered + 1 }
            (by intro w hw; exact hc w ((linesValids_cons_blank rest) ▸ hw))
      | badJSON =>
        simpa [runFileLoop, hbrk, stepFile] using
          ih { s with errors_encountered := s.errors_encountered + 1 }
            (by intro w hw; exact hc w ((linesValids_cons_badJSON rest) ▸ hw))
      | json v =>
        have hv : objHasKey v "contributors" = true := by
          apply hc
          rw [linesValids_cons_json]
          exact List.mem_cons_self v _
        have hrest : ∀ w ∈ linesValids rest, objHasKey w "contributors" = true := by
          intro w hw
          exact hc w ((linesValids_cons_json v rest) ▸ List.mem_cons_of_mem v hw)
        rw [runFileLoop, runFileLoop]
        simp only [hbrk, if_false, stepFile,
          processRecordFile_contrib_irrel hv d1 d2]
        cases processRecordFile d2 v with
        | error e => rfl
        | ok r => exact ih _ hrest

/-- The as-if-flushed view of an embedded file state is that state. -/
theorem projectBatch_fileToBatch (f : FileState) :
    projectBatch (fileToBatch f) = f := rfl

/-- A minimal fully-processable user substructure. -/
def sampleUser (uid : JValue) : JValue :=
  .obj [("id_str", uid), ("name", .str "Alice"), ("screen_name", .str "alice"),
        ("description", .str "bio"), ("friends_count", .num 5)]

/-- A minimal fully-processable record carrying every field the file
strategies subscript, with the given user id, post id and extra
fields. -/
def sampleTweet (uid tid : JValue) (extra : List (String × JValue)) : JValue :=
  .obj ([("user", sampleUser uid), ("created_at", .str "Mon Mar 06 2024"),
         ("id_str", tid), ("text", .str "hello"), ("source", .str "app"),
         ("retweet_count", .num 0)] ++ extra)

/-- A record with no `contributors` key (and no geo). -/
def cexC1 : JValue := sampleTweet (.str "U1") (.str "T1") []

/-- Claim C1 counterexample: on a record that lacks the `contributors`
field, the single-row file strategy and the batched strategy store
different TWEET rows — 1C serialises the `[]` default of
`tweet.get("contributors", [])` while 1D serialises the `None` default
of `tweet.get("contributors")` — so their final row sets differ on the
same input, same target and batch size 1, contradicting the claim that
the batched strategy always produces the same row sets as the
single-row strategy. -/
theorem claim_C1_counterexample :
    (populate_tables_txt_1C emptyDB [Line.json cexC1] 1).toOption.map (fun s => s.db.tweets)
      ≠ (batch_insert_data_1D emptyDB [Line.json cexC1] 1 1).toOption.map (fun s => s.db.tweets) := by
  decide

/-- Claim C1 (amended): the batched strategy produces identical final
results (store content and counters) for every pair of batch sizes;
and, provided every decodable record of the input carries a
`contributors` key, its final state viewed as-if-flushed coincides with
the single-row file strategy's final state on the same input and
target.  (Without that proviso the two strategies disagree on the
stored `contributors` column, as the counterexample shows.) -/
theorem claim_C1_batch_invariance (db0 : DB) (lines : List Line)
    (total b1 b2 : ℕ) :
    batch_insert_data_1D db0 lines total b1 = batch_insert_data_1D db0 lines total b2
    ∧ ((∀ v ∈ linesValids lines, objHasKey v "contributors" = true) →
       Except.map projectBatch (batch_insert_data_1D db0 lines total b1)
         = populate_tables_txt_1C db0 lines total) := by
  constructor
  · rw [batch_insert_canonical, batch_insert_canonical]
  · intro hc
    rw [batch_insert_canonical]
    have hcomp : Except.map projectBatch
        (Except.map fileToBatch (runFileLoop .null total ⟨db0, 0, 0⟩ lines))
        = runFileLoop .null total ⟨db0, 0, 0⟩ lines := by
      cases runFileLoop .null total (⟨db0, 0, 0⟩ : FileState) lines with
      | error c => rfl
      | ok f => simp [Except.map, projectBatch_fileToBatch]
    rw [hcomp, populate_tables_txt_1C]
    exact runFileLoop_contrib_irrel .null (.arr []) total lines ⟨db0, 0, 0⟩ hc

/-- A record like `cexC1` but with an explicit contributors field. -/
def witC1a : JValue := sampleTweet (.str "U1") (.str "T1") [("contributors", .arr [])]

/-- A second such record by the same user. -/
def witC1b : JValue := sampleTweet (.str "U1") (.str "T2") [("contributors", .null)]

/-- Witness for C1: at a concrete two-record input whose records carry
`contributors`, batch sizes 2 and 3 agree and the flushed view of the
batched run equals the single-row run. -/
theorem claim_C1_batch_invariance_witness :
    batch_insert_data_1D emptyDB [Line.json witC1a, Line.badJSON, Line.json witC1b] 2 2
      = batch_insert_data_1D emptyDB [Line.json witC1a, Line.badJSON, Line.json witC1b] 2 3
    ∧ Except.map projectBatch
        (batch_insert_data_1D emptyDB [Line.json witC1a, Line.badJSON, Line.json witC1b] 2 2)
      = populate_tables_txt_1C emptyDB [Line.json witC1a, Line.badJSON, Line.json witC1b] 2 :=
  ⟨(claim_C1_batch_invariance emptyDB [Line.json witC1a, Line.badJSON, Line.json witC1b] 2 2 3).1,
   (claim_C1_batch_invariance emptyDB [Line.json witC1a, Line.badJSON, Line.json witC1b] 2 2 3).2
     (by decide)⟩

/-- Claim C3: `null_checker` maps exactly the sentinel string `"NULL"`,
the explicit null, and the empty string to the canonical absent value
`None`, and passes every other value through unchanged. -/
theorem claim_C3_null_canonicalization (v : JValue) :
    (null_checker v = .null ↔ (v = .str "NULL" ∨ v = .null ∨ v = .str "")) ∧
    ((v ≠ .str "NULL" ∧ v ≠ .null ∧ v ≠ .str "") → null_checker v = v) := by
  cases v with
  | null => simp [null_checker]
  | str s =>
    by_cases h1 : s = "NULL"
    · subst h1; simp [null_checker]
    · by_cases h2 : s = ""
      · subst h2; simp [null_checker]
      · simp [null_checker, h1, h2]
  | bool b => simp [null_checker]
  | num q => simp [null_checker]
  | arr l => simp [null_checker]
  | obj fields => simp [null_checker]

/-- Witness for C3 at the sentinel string and at a plain number. -/
theorem claim_C3_witness :
    null_checker (.str "NULL") = .null ∧ null_checker (.num 7) = .num 7 :=
  ⟨(claim_C3_null_canonicalization (.str "NULL")).1.mpr (Or.inl rfl),
   (claim_C3_null_canonicalization (.num 7)).2 ⟨by simp, by simp, by simp⟩⟩

/-- Claim C8: with the supplied iteration counts `[5, 20]` (the shape of
`main`'s sweep), each timed pass of `execute_query_iterations_2B`
executes the query twice — the length of the supplied list — instead of
its own `k` times, and both passes store their elapsed time under the
key 20 (the inner `for count in iteration_counts` re-binds the outer
variable to the last element); with the singleton `[5]` that `main`
actually passes per call, the timed pass executes the query once, not
five times.  The claimed behaviour would be the passes `⟨5, 5⟩` and
`⟨20, 20⟩`. -/
theorem claim_C8_iteration_bug :
    execute_query_iterations_2B [5, 20] = [⟨20, 2⟩, ⟨20, 2⟩]
    ∧ execute_query_iterations_2B [5] = [⟨5, 1⟩]
    ∧ ((⟨20, 2⟩ : Pass2B) ≠ ⟨5, 5⟩ ∧ (⟨20, 2⟩ : Pass2B) ≠ ⟨20, 20⟩
       ∧ (⟨5, 1⟩ : Pass2B) ≠ ⟨5, 5⟩) := by
  refine ⟨rfl, rfl, by decide, by decide, by decide⟩

/-- The first record of the §8 scenario: a post by actor `U1` at
coordinates (10.0, 20.0). -/
def scenT1 : JValue :=
  sampleTweet (.str "U1") (.str "T1")
    [("geo", .obj [("type", .str "Point"), ("coordinates", .arr [.num 10, .num 20])])]

/-- The second record of the §8 scenario: another post by `U1` at the
same coordinates. -/
def scenT2 : JValue :=
  .obj [("user", sampleUser (.str "U1")), ("created_at", .str "Mon Mar 06 2024"),
        ("id_str", .str "T2"), ("text", .str "again"), ("source", .str "app"),
        ("retweet_count", .num 1),
        ("geo", .obj [("type", .str "Point"), ("coordinates", .arr [.num 10, .num 20])])]

/-- Claim C9: ingesting the three-line scenario input (two valid posts
by the same actor at identical coordinates, one invalid-JSON line) with
the batched strategy, target 3 and batch size 1 yields exactly one USER
row, one GEO row and two TWEET rows, both TWEET rows referencing that
GEO row's key, with an error counter of 1. -/
theorem claim_C9_scenario :
    ∃ s, batch_insert_data_1D emptyDB
        [Line.json scenT1, Line.json scenT2, Line.badJSON] 3 1 = .ok s
      ∧ s.db.users.length = 1
      ∧ s.db.geos.length = 1
      ∧ s.db.tweets.length = 2
      ∧ s.errors_encountered = 1
      ∧ s.db.tweets.map (fun t => t.geo_id) = [SVal.str "10_20", SVal.str "10_20"]
      ∧ s.db.geos.map (fun g => g.geo_id) = [SVal.str "10_20"] := by
  refine ⟨_, rfl, ?_, ?_, ?_, ?_, ?_, ?_⟩ <;> decide

/-- A record that is well formed except that it lacks the post
identifier `id_str` (the TWEET primary key field). -/
def cexC6 : JValue :=
  .obj [("user", sampleUser (.str "U1")), ("created_at", .str "Mon Mar 06 2024"),
        ("text", .str "hello"), ("source", .str "app"), ("retweet_count", .num 0)]

/-- Claim C6 evaluated at the failing input: contrary to the claim that
every insert-based strategy treats a record lacking the post identifier
as malformed and skips it, the web strategy stores a TWEET row with a
NULL `id_str` (`tweet.get("id_str")` defaults to `None`, `null_checker`
keeps it, and SQLite accepts a NULL primary key) and advances the
success counter, while both file strategies hit an uncaught `KeyError`
on `tweet["id_str"]` and abort the whole invocation with nothing
counted. -/
theorem claim_C6_missing_id_behavior :
    (∃ s, populate_tables_web_1B emptyDB [Line.json cexC6] 1 = .ok s
       ∧ s.tweets_processed = 1
       ∧ s.db.tweets.map (fun t => t.id_str) = [SVal.null])
    ∧ populate_tables_txt_1C emptyDB [Line.json cexC6] 1 = .error ⟨0, 0⟩
    ∧ batch_insert_data_1D emptyDB [Line.json cexC6] 1 5 = .error ⟨0, 0⟩ := by
  exact ⟨⟨_, rfl, by decide, by decide⟩, rfl, rfl⟩

/-- Inserting into an empty relation always stores the row. -/
theorem insertUserRow_nil (u : UserRow) : insertUserRow [] u = [u] := by
  by_cases h : u.id = SVal.null <;> simp [insertUserRow, h]

/-- Inserting into an empty relation always stores the row. -/
theorem insertGeoRow_nil (g : GeoRow) : insertGeoRow [] g = [g] := by
  by_cases h : g.geo_id = SVal.null <;> simp [insertGeoRow, h]

/-- Inserting into an empty relation always stores the row. -/
theorem insertTweetRow_nil (t : TweetRow) : insertTweetRow [] t = [t] := by
  by_cases h : t.id_str = SVal.null <;> simp [insertTweetRow, h]

/-- The GEO row a record produces always carries a constructed string
key (`f"{longitude}_{latitude}"`), never NULL. -/
theorem processRecordFile_geoRow_str {d v : JValue} {u : UserRow}
    {g : Option GeoRow} {t : TweetRow}
    (hp : processRecordFile d v = .ok (u, g, t)) :
    ∀ gr ∈ g, ∃ gid, gr.geo_id = SVal.str gid := by
  intro gr hgr
  obtain ⟨userJ, uidJ, geoJ, gp, caJ, tidJ, rtJ, contribJ, _, _, _, _, _,
    hgp, hg, _, _⟩ := processRecordFile_ok_inv hp
  obtain ⟨hfalse, htrue⟩ := geoPartFile_ok_inv hgp
  by_cases htr : truthy geoJ
  · obtain ⟨coords, lonlat, blon, blat, _, _, _, _, hgpv⟩ := htrue htr
    rw [hg, hgpv] at hgr
    simp at hgr
    subst hgr
    exact ⟨_, rfl⟩
  · rw [hg, hfalse (by simpa using htr)] at hgr
    simp at hgr

/-- A record with a NULL-canonicalised user id ingested twice: each
ingestion stores a fresh NULL-keyed USER row and a fresh NULL-keyed
TWEET row, because SQLite's `INSERT OR IGNORE` never treats two NULL
primary keys as equal — contradicting the claim that the second
ingestion leaves exactly one USER row and one TWEET row. -/
def cexC2 : JValue :=
  .obj [("user", .obj [("id_str", .str ""), ("name", .str "Alice"),
                       ("screen_name", .str "alice"), ("description", .str "bio"),
                       ("friends_count", .num 5)]),
        ("created_at", .str "Mon Mar 06 2024"), ("id_str", .str ""),
        ("text", .str "hello"), ("source", .str "app"), ("retweet_count", .num 0)]

/-- Claim C2 counterexample: ingesting `cexC2` (whose user id and post
id are the empty string, which `null_checker` canonicalises to NULL)
twice in one 1C invocation leaves two USER rows and two TWEET rows, not
one of each. -/
theorem claim_C2_counterexample :
    (populate_tables_txt_1C emptyDB [Line.json cexC2, Line.json cexC2] 2).toOption.map
        (fun s => (s.db.users.length, s.db.tweets.length)) = some (2, 2)
    ∧ ((2, 2) : ℕ × ℕ) ≠ (1, 1) := by
  exact ⟨by decide, by decide⟩

/-- Claim C2 (amended): for a record whose USER and TWEET primary keys
do not canonicalise to NULL, re-ingestion is a no-op: repeating its
three inserts on any store changes nothing; ingesting the same line
twice in one 1C invocation, or running a second 1C invocation over the
already-populated store, yields the same store as one ingestion (the
second pass advances only the counter); and the final store holds
exactly one USER row and one TWEET row under the record's keys and at
most one GEO row. -/
theorem claim_C2_idempotent (v : JValue) (db : DB) (u : UserRow)
    (g : Option GeoRow) (t : TweetRow)
    (hp : processRecordFile (.arr []) v = .ok (u, g, t))
    (hu : u.id ≠ SVal.null) (ht : t.id_str ≠ SVal.null) :
    applyEntities (applyEntities db u g t) u g t = applyEntities db u g t
    ∧ populate_tables_txt_1C emptyDB [Line.json v, Line.json v] 2
        = .ok ⟨applyEntities (applyEntities emptyDB u g t) u g t, 2, 0⟩
    ∧ populate_tables_txt_1C (applyEntities emptyDB u g t) [Line.json v] 1
        = .ok ⟨applyEntities (applyEntities emptyDB u g t) u g t, 1, 0⟩
    ∧ (applyEntities (applyEntities emptyDB u g t) u g t).users.countP
        (fun r => r.id == u.id) = 1
    ∧ (applyEntities (applyEntities emptyDB u g t) u g t).tweets.countP
        (fun r => r.id_str == t.id_str) = 1
    ∧ (applyEntities (applyEntities emptyDB u g t) u g t).geos.length ≤ 1 := by
  have hg : ∀ gr ∈ g, gr.geo_id ≠ SVal.null := by
    intro gr hgr
    obtain ⟨gid, hgid⟩ := processRecordFile_geoRow_str hp gr hgr
    simp [hgid]
  have hidem : ∀ db1, applyEntities (applyEntities db1 u g t) u g t
      = applyEntities db1 u g t := fun db1 => applyEntities_idem hu ht hg
  have happly2 : applyEntities (applyEntities emptyDB u g t) u g t
      = applyEntities emptyDB u g t := hidem emptyDB
  refine ⟨hidem db, ?_, ?_, ?_, ?_, ?_⟩
  · simp [populate_tables_txt_1C, runFileLoop, stepFile, hp, happly2]
  · simp [populate_tables_txt_1C, runFileLoop, stepFile, hp, happly2]
  · rw [happly2]
    have : (applyEntities emptyDB u g t).users = [u] := by
      simp [applyEntities, emptyDB, insertUserRow_nil]
    simp [this]
  · rw [happly2]
    have : (applyEntities emptyDB u g t).tweets = [t] := by
      simp [applyEntities, emptyDB, insertTweetRow_nil]
    simp [this]
  · rw [happly2]
    cases g with
    | none => simp [applyEntities, emptyDB]
    | some gr => simp [applyEntities, emptyDB, insertGeoRow_nil]

/-- A concrete fully-processable record with non-null keys and a geo. -/
def witC2 : JValue :=
  sampleTweet (.str "U9") (.str "T9")
    [("geo", .obj [("coordinates", .arr [.num 1, .num 2])])]

/-- The USER row `witC2` processes to. -/
def witC2u : UserRow :=
  ⟨.str "U9", .str "Alice", .str "alice", .str "bio", .num 5⟩

/-- The GEO row `witC2` processes to. -/
def witC2g : Option GeoRow := some ⟨.str "1_2", .str "Point", .num 1, .num 2⟩

/-- The TWEET row `witC2` processes to under the 1C contributors
default. -/
def witC2t : TweetRow :=
  ⟨.str "Mon Mar 06 2024", .str "T9", .str "hello", .str "app",
   .null, .null, .null, .num 0, .str "[]", .str "U9", .str "1_2"⟩

/-- Witness for C2 at the concrete record `witC2`: repeating its
inserts is a no-op. -/
theorem claim_C2_idempotent_witness :
    applyEntities (applyEntities emptyDB witC2u witC2g witC2t) witC2u witC2g witC2t
      = applyEntities emptyDB witC2u witC2g witC2t :=
  (claim_C2_idempotent witC2 emptyDB witC2u witC2g witC2t (by rfl)
    (by decide) (by decide)).1

/-- A record whose geo carries a two-element but non-numeric
coordinates value. -/
def cexC4 : JValue :=
  sampleTweet (.str "U1") (.str "T1")
    [("geo", .obj [("coordinates", .arr [.str "a", .str "b"])])]

/-- Claim C4 counterexample: the single-row file strategy persists a
GEO row — with string longitude and latitude — for a record whose
coordinates are not numeric, and stores a present `geo_id` reference in
the TWEET row; the claim required no GEO row and an absent reference
whenever the elements are not numeric. -/
theorem claim_C4_counterexample :
    (populate_tables_txt_1C emptyDB [Line.json cexC4] 1).toOption.map
        (fun s => (s.db.geos, s.db.tweets.map (fun t => t.geo_id)))
      = some ([⟨SVal.str "a_b", SVal.str "Point", SVal.str "a", SVal.str "b"⟩],
              [SVal.str "a_b"])
    ∧ some ([(⟨SVal.str "a_b", SVal.str "Point", SVal.str "a", SVal.str "b"⟩ : GeoRow)],
            [SVal.str "a_b"])
      ≠ some (([] : List GeoRow), [SVal.null]) := by
  exact ⟨by decide, by decide⟩

/-- Claim C4 (amended): for every record a strategy processes without
aborting, a GEO row is constructed and referenced if and only if —
in the file strategies — the record's `geo` value is truthy (with
whatever two values its coordinates unpack into, numeric or not), and —
in the web strategy — the `geo` value is truthy, contains
`"coordinates"`, and every coordinate element is numeric; in every
other non-aborting case the TWEET row's `geo_id` is NULL and no GEO row
is produced; and a file-strategy record whose truthy geo has no
usable coordinates (missing key or not unpackable into two) aborts
processing instead of being stored without a location. -/
theorem claim_C4_geo_construction :
    (∀ (d v : JValue) (u : UserRow) (g : Option GeoRow) (t : TweetRow),
      processRecordFile d v = .ok (u, g, t) →
      ∃ geoJ, pyGet v "geo" .null = .ok geoJ ∧
        g.isSome = truthy geoJ ∧
        (g = none → t.geo_id = SVal.null) ∧
        (∀ gr, g = some gr → t.geo_id = gr.geo_id))
    ∧ (∀ (d v geoJ : JValue),
        pyGet v "geo" .null = .ok geoJ → truthy geoJ = true →
        ((∃ e, pySubscript geoJ "coordinates" = .error e) ∨
         (∃ coords e, pySubscript geoJ "coordinates" = .ok coords ∧
           pyUnpack2 coords = .error e)) →
        ∃ e2, processRecordFile d v = .error e2)
    ∧ (∀ (v : JValue) (u : UserRow) (g : Option GeoRow) (t : TweetRow),
        processRecordWeb v = .ok (u, g, t) →
        ∃ geoJ, pyGet v "geo" .null = .ok geoJ ∧
          (g.isSome = true ↔ (truthy geoJ = true ∧
            pyContains "coordinates" geoJ = .ok true ∧
            ∃ coords, pySubscript geoJ "coordinates" = .ok coords ∧
              pyIterAllNumeric coords = .ok true)) ∧
          (g = none → t.geo_id = SVal.null) ∧
          (∀ gr, g = some gr → t.geo_id = gr.geo_id)) := by
  refine ⟨?_, ?_, ?_⟩
  · intro d v u g t hp
    obtain ⟨userJ, uidJ, geoJ, gp, caJ, tidJ, rtJ, contribJ, _, _, _, _,
      hgeo, hgp, hg, hgid, _⟩ := processRecordFile_ok_inv hp
    obtain ⟨hfalse, htrue⟩ := geoPartFile_ok_inv hgp
    refine ⟨geoJ, hgeo, ?_, ?_, ?_⟩
    · by_cases htr : truthy geoJ
      · obtain ⟨_, _, _, _, _, _, _, _, hgpv⟩ := htrue htr
        rw [hg, hgpv, htr]
        rfl
      · rw [hg, hfalse (by simpa using htr)]
        simp [Bool.eq_false_iff.mpr htr]
    · intro hnone
      by_cases htr : truthy geoJ
      · obtain ⟨_, _, _, _, _, _, _, _, hgpv⟩ := htrue htr
        rw [hg, hgpv] at hnone
        simp at hnone
      · rw [hgid, hfalse (by simpa using htr)]
    · intro gr hgr
      by_cases htr : truthy geoJ
      · obtain ⟨_, _, _, _, _, _, _, _, hgpv⟩ := htrue htr
        rw [hg, hgpv] at hgr
        simp at hgr
        rw [hgid, hgpv, ← hgr]
      · rw [hg, hfalse (by simpa using htr)] at hgr
        simp at hgr
  · intro d v geoJ hgeo htr hbad
    cases hpr : processRecordFile d v with
    | error e => exact ⟨e, rfl⟩
    | ok r =>
      obtain ⟨u, g, t⟩ := r
      obtain ⟨userJ, uidJ, geoJ2, gp, caJ, tidJ, rtJ, contribJ, _, _, _, _,
        hgeo2, hgp, _, _, _⟩ := processRecordFile_ok_inv hpr
      rw [hgeo] at hgeo2
      have hJ : geoJ2 = geoJ := ((Except.ok.injEq _ _).mp hgeo2).symm
      subst hJ
      obtain ⟨_, htrue⟩ := geoPartFile_ok_inv hgp
      obtain ⟨coords, lonlat, blon, blat, hsub, hunp, _, _, _⟩ := htrue htr
      rcases hbad with ⟨e, he⟩ | ⟨coords2, e, hsub2, hunp2⟩
      · rw [hsub] at he
        exact absurd he (by simp)
      · rw [hsub] at hsub2
        have : coords2 = coords := ((Except.ok.injEq _ _).mp hsub2).symm
        subst this
        rw [hunp] at hunp2
        exact absurd hunp2 (by simp)
  · intro v u g t hp
    obtain ⟨userJ, uidJ, geoJ, gp, tidJ, contribJ, _, _, _, _,
      hgeo, hgp, hg, hgid, _, _⟩ := processRecordWeb_ok_inv hp
    obtain ⟨hfalse, htrue⟩ := geoPartWeb_ok_inv hgp
    by_cases htr : truthy geoJ
    · obtain ⟨hc, hcont, hrest⟩ := htrue htr
      rcases hrest with ⟨hcf, hgpv⟩ | ⟨hct, coords, allNum, hsub, hall, hrest2⟩
      · subst hcf
        refine ⟨geoJ, hgeo, ?_, ?_, ?_⟩
        · rw [hg, hgpv]
          simp only [Option.isSome_none]
          constructor
          · intro h; exact absurd h (by simp)
          · rintro ⟨_, hcont2, _⟩
            rw [hcont] at hcont2
            exact absurd hcont2 (by simp)
        · intro _; rw [hgid, hgpv]
        · intro gr hgr; rw [hg, hgpv] at hgr; simp at hgr
      · subst hct
        rcases hrest2 with ⟨haf, hgpv⟩ | ⟨hat, lonlat, blon, blat, hunp, _, _, hgpv⟩
        · subst haf
          refine ⟨geoJ, hgeo, ?_, ?_, ?_⟩
          · rw [hg, hgpv]
            simp only [Option.isSome_none]
            constructor
            · intro h; exact absurd h (by simp)
            · rintro ⟨_, _, coords2, hsub2, hall2⟩
              rw [hsub] at hsub2
              have : coords2 = coords := ((Except.ok.injEq _ _).mp hsub2).symm
              subst this
              rw [hall] at hall2
              exact absurd ((Except.ok.injEq _ _).mp hall2) (by simp)
          · intro _; rw [hgid, hgpv]
          · intro gr hgr; rw [hg, hgpv] at hgr; simp at hgr
        · subst hat
          refine ⟨geoJ, hgeo, ?_, ?_, ?_⟩
          · rw [hg, hgpv]
            simp only [Option.isSome_some]
            exact ⟨fun _ => ⟨htr, hcont, coords, hsub, hall⟩, fun _ => trivial⟩
          · intro hnone; rw [hg, hgpv] at hnone; simp at hnone
          · intro gr hgr
            rw [hg, hgpv] at hgr
            simp at hgr
            rw [hgid, hgpv, ← hgr]
    · have htrf : truthy geoJ = false := by simpa using htr
      have hgpv := hfalse htrf
      refine ⟨geoJ, hgeo, ?_, ?_, ?_⟩
      · rw [hg, hgpv]
        simp only [Option.isSome_none]
        constructor
        · intro h; exact absurd h (by simp)
        · rintro ⟨htr2, _⟩
          rw [htrf] at htr2
          exact absurd htr2 (by simp)
      · intro _; rw [hgid, hgpv]
      · intro gr hgr; rw [hg, hgpv] at hgr; simp at hgr

/-- Witness for C4 at the concrete record `witC2` (truthy geo with
numeric coordinates): the GEO row is present and referenced. -/
theorem claim_C4_witness :
    ∃ geoJ, pyGet witC2 "geo" .null = .ok geoJ ∧
      witC2g.isSome = truthy geoJ ∧
      (witC2g = none → witC2t.geo_id = SVal.null) ∧
      (∀ gr, witC2g = some gr → witC2t.geo_id = gr.geo_id) :=
  claim_C4_geo_construction.1 (.arr []) witC2 witC2u witC2g witC2t (by rfl)

/-- A record whose user id is the literal string `"NULL"`. -/
def cexC7 : JValue := sampleTweet (.str "NULL") (.str "T1") []

/-- Claim C7 counterexample: the USER primary-key column does pass
through `null_checker` — a user id that is the sentinel string `"NULL"`
is stored as NULL in `USER.id` (and in `TWEET.id_str` likewise), not
"exactly as found in the source"; only the TWEET `user_id` foreign-key
column receives the raw value. -/
theorem claim_C7_counterexample :
    (processRecordFile (.arr []) cexC7).toOption.map
        (fun r => (r.1.id, r.2.2.user_id)) = some (SVal.null, SVal.str "NULL")
    ∧ (SVal.null, SVal.str "NULL") ≠ (SVal.str "NULL", SVal.str "NULL") := by
  exact ⟨by decide, by decide⟩

/-- Claim C7 (amended): in every strategy the USER `id` and TWEET
`id_str` primary-key columns are bound to the `null_checker` image of
the raw identifiers (so they are canonicalised like any other
attribute), while the TWEET `user_id` foreign-key column is bound to
the raw user identifier without the null checker, and the GEO
`geo_id` primary key (equal to the TWEET `geo_id` reference) is the
string constructed from the coordinates, not a null-checked source
value. -/
theorem claim_C7_pk_null_checked :
    (∀ (d v : JValue) (u : UserRow) (g : Option GeoRow) (t : TweetRow),
      processRecordFile d v = .ok (u, g, t) →
      ∃ userJ uidJ tidJ,
        pySubscript v "user" = .ok userJ ∧
        pySubscript userJ "id_str" = .ok uidJ ∧
        bindVal (null_checker uidJ) = .ok u.id ∧
        pySubscript v "id_str" = .ok tidJ ∧
        bindVal (null_checker tidJ) = .ok t.id_str ∧
        bindVal uidJ = .ok t.user_id ∧
        (∀ gr ∈ g, (∃ gid, gr.geo_id = SVal.str gid) ∧ t.geo_id = gr.geo_id))
    ∧ (∀ (v : JValue) (u : UserRow) (g : Option GeoRow) (t : TweetRow),
        processRecordWeb v = .ok (u, g, t) →
        ∃ userJ uidJ tidJ,
          pyGet v "user" (.obj []) = .ok userJ ∧
          pyGet userJ "id_str" .null = .ok uidJ ∧
          bindVal (null_checker uidJ) = .ok u.id ∧
          pyGet v "id_str" .null = .ok tidJ ∧
          bindVal (null_checker tidJ) = .ok t.id_str ∧
          bindVal uidJ = .ok t.user_id) := by
  constructor
  · intro d v u g t hp
    obtain ⟨userJ, uidJ, geoJ, gp, caJ, tidJ, rtJ, contribJ, h1, h2, h3, h4,
      hgeo, hgp, hg, hgid, _, _, htid, hbtid, _, _, _, _⟩ :=
      processRecordFile_ok_inv hp
    refine ⟨userJ, uidJ, tidJ, h1, h2, h3, htid, hbtid, h4, ?_⟩
    intro gr hgr
    refine ⟨processRecordFile_geoRow_str hp gr hgr, ?_⟩
    obtain ⟨hfalse, htrue⟩ := geoPartFile_ok_inv hgp
    by_cases htr : truthy geoJ
    · obtain ⟨_, _, _, _, _, _, _, _, hgpv⟩ := htrue htr
      rw [hg, hgpv] at hgr
      simp at hgr
      rw [hgid, hgpv, ← hgr]
    · rw [hg, hfalse (by simpa using htr)] at hgr
      simp at hgr
  · intro v u g t hp
    obtain ⟨userJ, uidJ, geoJ, gp, tidJ, contribJ, h1, h2, h3, h4,
      _, _, _, _, htid, hbtid, _, _⟩ := processRecordWeb_ok_inv hp
    exact ⟨userJ, uidJ, tidJ, h1, h2, h3, htid, hbtid, h4⟩

/-- Witness for C7 at the concrete record `witC2`. -/
theorem claim_C7_witness :
    ∃ userJ uidJ tidJ,
      pySubscript witC2 "user" = .ok userJ ∧
      pySubscript userJ "id_str" = .ok uidJ ∧
      bindVal (null_checker uidJ) = .ok witC2u.id ∧
      pySubscript witC2 "id_str" = .ok tidJ ∧
      bindVal (null_checker tidJ) = .ok witC2t.id_str ∧
      bindVal uidJ = .ok witC2t.user_id ∧
      (∀ gr ∈ witC2g, (∃ gid, gr.geo_id = SVal.str gid) ∧ witC2t.geo_id = gr.geo_id) :=
  claim_C7_pk_null_checked.1 (.arr []) witC2 witC2u witC2g witC2t (by rfl)

/-- Claim C10: in the file strategies, the only record-level failure
that is caught is JSON-decode failure (an undecodable line increments
the error counter and processing continues), while a line that is valid
JSON but lacks the `user` substructure, or lacks a subscripted required
field such as `created_at` or `retweet_count`, or whose truthy `geo`
value has no `coordinates` key or a coordinates value that does not
unpack into a pair, raises an uncaught exception that aborts the rest of
the invocation with the error counter not incremented. -/
theorem claim_C10_uncaught_failures
    (d : JValue) (total batch_size : ℕ) (s : FileState) (sb : BatchState)
    (v : JValue) (rest : List Line)
    (hs : s.tweets_processed < total) (hsb : sb.tweets_processed < total)
    (hbad : objHasKey v "user" = false ∨ objHasKey v "created_at" = false ∨
            objHasKey v "retweet_count" = false ∨
            (∃ geoJ, pyGet v "geo" .null = .ok geoJ ∧ truthy geoJ = true ∧
              ((∃ e, pySubscript geoJ "coordinates" = .error e) ∨
               (∃ coords e, pySubscript geoJ "coordinates" = .ok coords ∧
                 pyUnpack2 coords = .error e)))) :
    runFileLoop d total s (Line.json v :: rest)
        = .error ⟨s.tweets_processed, s.errors_encountered⟩
    ∧ runBatchLoop batch_size total sb (Line.json v :: rest)
        = .error ⟨sb.tweets_processed, sb.errors_encountered⟩
    ∧ runFileLoop d total s (Line.badJSON :: rest)
        = runFileLoop d total
            { s with errors_encountered := s.errors_encountered + 1 } rest := by
  have hcrAll : ∀ d2 : JValue, ∃ e, processRecordFile d2 v = .error e := by
    intro d2
    cases hpr : processRecordFile d2 v with
    | error e => exact ⟨e, rfl⟩
    | ok r =>
      obtain ⟨u, g, t⟩ := r
      obtain ⟨userJ, uidJ, geoJ, gp, caJ, tidJ, rtJ, contribJ, h1, h2, _, _,
        hgeo, hgp, _, _, hca, _, htid, _, hrt, _, _, _⟩ :=
        processRecordFile_ok_inv hpr
      rcases hbad with hk | hk | hk | ⟨geoJ2, hgeo2, htr, hbadg⟩
      · rw [pySubscript_ok_hasKey h1] at hk
        exact absurd hk (by simp)
      · rw [pySubscript_ok_hasKey hca] at hk
        exact absurd hk (by simp)
      · rw [pySubscript_ok_hasKey hrt] at hk
        exact absurd hk (by simp)
      · rw [hgeo] at hgeo2
        have hJ : geoJ2 = geoJ := ((Except.ok.injEq _ _).mp hgeo2).symm
        subst hJ
        obtain ⟨_, htrue⟩ := geoPartFile_ok_inv hgp
        obtain ⟨coords, lonlat, blon, blat, hsub, hunp, _, _, _⟩ := htrue htr
        rcases hbadg with ⟨e, he⟩ | ⟨coords2, e, hsub2, hunp2⟩
        · rw [hsub] at he
          exact absurd he (by simp)
        · rw [hsub] at hsub2
          have : coords2 = coords := ((Except.ok.injEq _ _).mp hsub2).symm
          subst this
          rw [hunp] at hunp2
          exact absurd hunp2 (by simp)
  obtain ⟨e1, he1⟩ := hcrAll d
  obtain ⟨e2, he2⟩ := hcrAll .null
  refine ⟨?_, ?_, ?_⟩
  · rw [runFileLoop]
    simp [Nat.not_le.mpr hs, stepFile, he1]
  · rw [runBatchLoop]
    simp [Nat.not_le.mpr hsb, stepBatch, he2]
  · rw [runFileLoop]
    simp [Nat.not_le.mpr hs, stepFile]

/-- A record that is valid JSON with a user substructure but with no
`created_at` field. -/
def witC10 : JValue :=
  .obj [("user", sampleUser (.str "U1")), ("id_str", .str "T1"),
        ("text", .str "hello"), ("source", .str "app"), ("retweet_count", .num 0)]

/-- Witness for C10 at a record lacking `created_at`: both file
strategies abort with the counters untouched and an undecodable line is
handled without aborting. -/
theorem claim_C10_witness :
    runFileLoop (.arr []) 1 ⟨emptyDB, 0, 0⟩ [Line.json witC10] = .error ⟨0, 0⟩
    ∧ runBatchLoop 4 1 ⟨emptyDB, [], [], [], 0, 0⟩ [Line.json witC10] = .error ⟨0, 0⟩
    ∧ runFileLoop (.arr []) 1 ⟨emptyDB, 0, 0⟩ [Line.badJSON]
        = runFileLoop (.arr []) 1 ⟨emptyDB, 0, 1⟩ [] :=
  claim_C10_uncaught_failures (.arr []) 1 4 ⟨emptyDB, 0, 0⟩ ⟨emptyDB, [], [], [], 0, 0⟩
    witC10 [] (by decide) (by decide) (Or.inr (Or.inl (by decide)))

/-- Decoded records of a concatenation. -/
theorem linesValids_append (a b : List Line) :
    linesValids (a ++ b) = linesValids a ++ linesValids b := by
  simp [linesValids]

/-- TWEET keys of a concatenation. -/
theorem tweetIdsOf_append (d : JValue) (a b : List Line) :
    tweetIdsOf d (a ++ b) = tweetIdsOf d a ++ tweetIdsOf d b := by
  simp [tweetIdsOf, linesValids_append]

/-- Core of the malformed-resilience property for a file-strategy run
with contributors default `d`: a source consisting of a front segment
(whose decodable records all process successfully) followed by one last
decodable record, ingested into an empty store with the target equal to
the number of decodable records, runs to completion with
`tweets_processed` equal to that number, `errors_encountered` equal to
the number of undecodable lines, and — when the records' TWEET keys are
pairwise distinct — exactly that many TWEET rows. -/
theorem runFile_resilience (d : JValue) (front : List Line) (vN : JValue)
    (hok : ∀ v ∈ linesValids (front ++ [Line.json vN]),
      exceptOk (processRecordFile d v) = true)
    (hnd : (tweetIdsOf d (front ++ [Line.json vN])).Nodup) :
    ∃ s, runFileLoop d (linesValids (front ++ [Line.json vN])).length
        ⟨emptyDB, 0, 0⟩ (front ++ [Line.json vN]) = .ok s
      ∧ s.tweets_processed = (linesValids (front ++ [Line.json vN])).length
      ∧ s.errors_encountered = badLineCount front
      ∧ s.db.tweets.length = (linesValids (front ++ [Line.json vN])).length := by
  have hva : linesValids (front ++ [Line.json vN])
      = linesValids front ++ [vN] := by
    rw [linesValids_append]; rfl
  have hia : tweetIdsOf d (front ++ [Line.json vN])
      = tweetIdsOf d front ++ [tweetIdOf d vN] := by
    rw [tweetIdsOf_append]; rfl
  set N := (linesValids (front ++ [Line.json vN])).length with hNdefX
  have hNn : N = (linesValids front).length + 1 := by
    rw [hNdefX, hva]; simp
  have hndf : (tweetIdsOf d front).Nodup := by
    rw [hia] at hnd
    exact hnd.of_append_left
  obtain ⟨s1, hrun1, hp1, he1, hdb1⟩ := runFileLoop_clean d N front ⟨emptyDB, 0, 0⟩
    (by intro w hw; exact hok w (by rw [hva]; exact List.mem_append_left _ hw))
    (by simp [hNn])
    (by
      simp only [emptyDB, List.map_nil, List.nil_append]
      exact hndf.imp (fun h => Or.inl h))
  have hfr : ∀ a ∈ tweetIdsOf d front, a ≠ tweetIdOf d vN := by
    intro a ha
    rw [hia] at hnd
    exact fun heq => (List.disjoint_of_nodup_append hnd) ha (by simp [heq])
  have hokN : exceptOk (processRecordFile d vN) = true := by
    apply hok
    rw [hva]
    exact List.mem_append_right _ (by simp)
  obtain ⟨r, hr⟩ : ∃ r, processRecordFile d vN = .ok r := by
    cases hpr : processRecordFile d vN with
    | ok r => exact ⟨r, rfl⟩
    | error e => rw [hpr] at hokN; simp [exceptOk] at hokN
  obtain ⟨u, g, t⟩ := r
  have hidN : tweetIdOf d vN = t.id_str := by simp [tweetIdOf, hr]
  have happend : insertTweetRow s1.db.tweets t = s1.db.tweets ++ [t] := by
    apply insertTweetRow_append
    refine Or.inr ?_
    rintro ⟨r0, hr0, hideq⟩
    have hmem : r0.id_str ∈ tweetIdsOf d front := by
      have : r0.id_str ∈ s1.db.tweets.map (fun r => r.id_str) := by
        simp
        exact ⟨r0, hr0, rfl⟩
      rw [hdb1] at this
      simpa [emptyDB] using this
    exact hfr r0.id_str hmem (by rw [hideq, hidN])
  have hplt : s1.tweets_processed < N := by
    rw [hp1]
    simp [hNn, emptyDB]
  refine ⟨⟨applyEntities s1.db u g t, s1.tweets_processed + 1,
           s1.errors_encountered⟩, ?_, ?_, ?_, ?_⟩
  · rw [runFileLoop_append, hrun1]
    show runFileLoop d N s1 [Line.json vN] = _
    simp only [runFileLoop, Nat.not_le.mpr hplt, if_false, stepFile, hr]
  · simp only [hp1]
    simp [hNn, emptyDB]
  · simpa [emptyDB] using he1
  · show (applyEntities s1.db u g t).tweets.length = N
    have hlen : s1.db.tweets.length = (tweetIdsOf d front).length := by
      have := congrArg List.length hdb1
      simpa [emptyDB] using this
    simp only [applyEntities, happend, List.length_append, List.length_singleton]
    rw [hlen, hNn]
    simp [tweetIdsOf]

/-- A well-formed record with post id `T1`. -/
def cexC5a : JValue := sampleTweet (.str "U1") (.str "T1") []

/-- A different well-formed record with the same post id `T1`. -/
def cexC5b : JValue :=
  .obj [("user", sampleUser (.str "U1")), ("created_at", .str "Tue Mar 07 2024"),
        ("id_str", .str "T1"), ("text", .str "other"), ("source", .str "web"),
        ("retweet_count", .num 3)]

/-- Claim C5 counterexample: a source of N = 2 well-formed records (and
M = 1 malformed line before the target is reached) whose records share
a post id yields only 1 TWEET row, not 2 — `INSERT OR IGNORE`
deduplicates on the primary key even though the success counter reaches
2 — so the claim's "exactly N TWEET rows" fails as stated. -/
theorem claim_C5_counterexample :
    (populate_tables_txt_1C emptyDB
        [Line.json cexC5a, Line.badJSON, Line.json cexC5b] 2).toOption.map
        (fun s => (s.tweets_processed, s.errors_encountered, s.db.tweets.length))
      = some (2, 1, 1)
    ∧ ((2, 1, 1) : ℕ × ℕ × ℕ) ≠ (2, 1, 2) := by
  exact ⟨by decide, by decide⟩

/-- Claim C5 (amended): for the file strategies — the only insert-based
strategies that maintain an error counter — a source of N fully
processable records with pairwise-distinct TWEET keys, interleaved with
M undecodable lines all before the N-th record, ingested into an empty
store with target N, completes with success counter N, error counter M
and exactly N TWEET rows, for any batch size in the batched variant;
each undecodable line increments the error counter without advancing
the success counter or aborting.  The web strategy also skips blank and
undecodable lines without aborting, but it maintains no error counter
(its state has none to increment). -/
theorem claim_C5_malformed_resilience
    (front : List Line) (vN : JValue) (N M batch_size : ℕ)
    (hN : N = (linesValids (front ++ [Line.json vN])).length)
    (hM : M = badLineCount front)
    (hok1 : ∀ v ∈ linesValids (front ++ [Line.json vN]),
      exceptOk (processRecordFile (.arr []) v) = true)
    (hok2 : ∀ v ∈ linesValids (front ++ [Line.json vN]),
      exceptOk (processRecordFile .null v) = true)
    (hnd1 : (tweetIdsOf (.arr []) (front ++ [Line.json vN])).Nodup)
    (hnd2 : (tweetIdsOf .null (front ++ [Line.json vN])).Nodup) :
    (∃ s, populate_tables_txt_1C emptyDB (front ++ [Line.json vN]) N = .ok s
       ∧ s.tweets_processed = N ∧ s.errors_encountered = M
       ∧ s.db.tweets.length = N)
    ∧ (∃ s, batch_insert_data_1D emptyDB (front ++ [Line.json vN]) N batch_size = .ok s
       ∧ s.tweets_processed = N ∧ s.errors_encountered = M
       ∧ s.db.tweets.length = N)
    ∧ (∀ w : WebState, stepWeb w Line.badJSON = .ok w ∧ stepWeb w Line.blank = .ok w)
    ∧ (∀ (d : JValue) (sf : FileState), stepFile d sf Line.badJSON
        = .ok { sf with errors_encountered := sf.errors_encountered + 1 }) := by
  subst hN; subst hM
  refine ⟨?_, ?_, fun w => ⟨rfl, rfl⟩, fun d sf => rfl⟩
  · obtain ⟨s, hrun, hp, he, hl⟩ := runFile_resilience (.arr []) front vN hok1 hnd1
    exact ⟨s, hrun, hp, he, hl⟩
  · obtain ⟨s, hrun, hp, he, hl⟩ := runFile_resilience .null front vN hok2 hnd2
    refine ⟨fileToBatch s, ?_, hp, he, hl⟩
    rw [batch_insert_canonical, hrun]
    rfl

/-- Witness for C5: two distinct-key records around one undecodable
line, target 2, batch size 3. -/
theorem claim_C5_witness :
    (∃ s, populate_tables_txt_1C emptyDB
        ([Line.json witC1a, Line.badJSON] ++ [Line.json witC1b]) 2 = .ok s
      ∧ s.tweets_processed = 2 ∧ s.errors_encountered = 1
      ∧ s.db.tweets.length = 2)
    ∧ (∃ s, batch_insert_data_1D emptyDB
        ([Line.json witC1a, Line.badJSON] ++ [Line.json witC1b]) 2 3 = .ok s
      ∧ s.tweets_processed = 2 ∧ s.errors_encountered = 1
      ∧ s.db.tweets.length = 2)
    ∧ (∀ w : WebState, stepWeb w Line.badJSON = .ok w ∧ stepWeb w Line.blank = .ok w)
    ∧ (∀ (d : JValue) (sf : FileState), stepFile d sf Line.badJSON
        = .ok { sf with errors_encountered := sf.errors_encountered + 1 }) :=
  claim_C5_malformed_resilience [Line.json witC1a, Line.badJSON] witC1b 2 1 3
    (by decide) (by decide) (by decide) (by decide) (by decide) (by decide)
